import Mathlib

/-!
Verification development for the motion-ai-cs message-processing pipeline
(`server-py/`): shallow embedding of the ingest gate, the skip-pattern
matcher, the tiered LLM classifier, the worker claim loop, the ticket state
machine and the SLA monitor, together with theorems settling the spec claims.

Conventions of the embedding:
* Python strings are handled as `List Char`; timestamps are `Int` seconds.
* External effects (database reads performed by helper functions, the LLM
  HTTP call, the Slack webhook) are explicit parameters of an environment
  record; the list of LLM / webhook calls performed is returned as an
  explicit trace.
* Python exceptions are modelled with `Except String` (the payload is the
  exception message, as used by the source's `str(e)` fallbacks).
* Python numbers (JSON ints/floats) are modelled as exact decimals
  `Dec m e = m / 10^e`; the literals compared by the source (0.5, 0.65, ...)
  are exactly representable, so the comparisons agree, and all arithmetic
  reduces inside the kernel.
-/

/-! ## Python string primitives (subset used by `shared/` and `worker/`) -/

/-- Whitespace stripped by `str.strip()` (ASCII subset; the texts involved
contain no exotic unicode spaces). -/
def pySpace (c : Char) : Bool :=
  c == ' ' || c == '\t' || c == '\n' || c == '\r' || c == '\x0b' || c == '\x0c'

/-- `text.strip()`. -/
def pyStrip (cs : List Char) : List Char :=
  ((cs.dropWhile pySpace).reverse.dropWhile pySpace).reverse

/-- `text.lower()` (ASCII case folding; Korean characters are unaffected). -/
def pyLower (cs : List Char) : List Char := cs.map Char.toLower

/-- `pre` is a prefix of `cs` (`str.startswith`). -/
def hasPrefixB (pre cs : List Char) : Bool := pre.isPrefixOf cs

/-- Python substring containment `needle in hay`. -/
def containsSub (hay needle : List Char) : Bool :=
  needle.isPrefixOf hay ||
    (match hay with
     | [] => false
     | _ :: t => containsSub t needle)

/-- `text[:n]`. -/
def pySlice (n : Nat) (cs : List Char) : List Char := cs.take n

/-- Lookup in an association list (Python `dict` access by key,
insertion-ordered). -/
def alookup {α : Type} (k : String) : List (String × α) → Option α
  | [] => none
  | (k2, v) :: rest => if k2 == k then some v else alookup k rest

/-! ## JSON values and `json.loads`

`worker/llm.py` feeds LLM output through `json.loads`.  We embed the JSON
grammar accepted by Python's strict parser: numbers are represented as exact
decimals (Python distinguishes int/float, which is immaterial to every use
site), duplicate object keys keep the first position and the last value,
exactly as a Python dict built by successive assignment. -/

/-- Exact decimal `m / 10 ^ e`, the value domain of the JSON numbers this
program manipulates. -/
structure Dec where
  m : Int
  e : Nat
deriving Repr, DecidableEq

/-- Numeric strict order on decimals (cross-multiplied, so it reduces). -/
def Dec.ltB (a b : Dec) : Bool := a.m * (10 : Int) ^ b.e < b.m * (10 : Int) ^ a.e

/-- Numeric equality on decimals (independent of representation). -/
def Dec.eqvB (a b : Dec) : Bool := a.m * (10 : Int) ^ b.e == b.m * (10 : Int) ^ a.e

inductive Json where
  | null : Json
  | bool : Bool → Json
  | num : Dec → Json
  | str : String → Json
  | arr : List Json → Json
  | obj : List (String × Json) → Json
deriving Repr

/-- JSON whitespace accepted between tokens by `json.loads`. -/
def jsonWs (c : Char) : Bool := c == ' ' || c == '\t' || c == '\n' || c == '\r'

def skipWs (cs : List Char) : List Char := cs.dropWhile jsonWs

def digitsToNat (ds : List Char) : Nat :=
  ds.foldl (fun a c => a * 10 + (c.toNat - '0'.toNat)) 0

/-- Parse the exponent part (after `e`/`E`) of a JSON number. -/
def parseExpPart (cs : List Char) : Option (Int × List Char) :=
  let (sgn, cs1) : Bool × List Char :=
    match cs with
    | '+' :: t => (false, t)
    | '-' :: t => (true, t)
    | _ => (false, cs)
  let ds := cs1.takeWhile Char.isDigit
  if ds.isEmpty then none
  else
    let n : Int := (digitsToNat ds : Nat)
    some ((if sgn then -n else n), cs1.drop ds.length)

/-- Parse a JSON number per the grammar enforced by `json.loads`:
`-? (0 | [1-9][0-9]*) (. [0-9]+)? ([eE] [+-]? [0-9]+)?`.  The value
`mantissa * 10 ^ (exp - fracLen)` is represented as a `Dec`. -/
def parseNum (cs : List Char) : Option (Dec × List Char) :=
  let (neg, cs1) : Bool × List Char :=
    match cs with
    | '-' :: t => (true, t)
    | _ => (false, cs)
  let ip := cs1.takeWhile Char.isDigit
  if ip.isEmpty then none
  else if ip.length > 1 && ip.headD '0' == '0' then none
  else
    let cs2 := cs1.drop ip.length
    let fracStep : Option (List Char × List Char) :=
      match cs2 with
      | '.' :: t =>
        let f := t.takeWhile Char.isDigit
        if f.isEmpty then none else some (f, t.drop f.length)
      | _ => some ([], cs2)
    match fracStep with
    | none => none
    | some (f, cs3) =>
      let expStep : Option (Int × List Char) :=
        match cs3 with
        | c :: t => if c == 'e' || c == 'E' then parseExpPart t else some (0, cs3)
        | [] => some (0, cs3)
      match expStep with
      | none => none
      | some (e, cs4) =>
        let mAbs : Nat := digitsToNat ip * 10 ^ f.length + digitsToNat f
        let m : Int := if neg then -(mAbs : Int) else (mAbs : Int)
        let net : Int := (f.length : Int) - e
        let v : Dec := if 0 ≤ net then ⟨m, net.toNat⟩ else ⟨m * (10 : Int) ^ (-net).toNat, 0⟩
        some (v, cs4)

def hexVal (c : Char) : Option Nat :=
  if c.isDigit then some (c.toNat - 48)
  else if 'a' ≤ c && c ≤ 'f' then some (c.toNat - 87)
  else if 'A' ≤ c && c ≤ 'F' then some (c.toNat - 55)
  else none

def escChar (e : Char) : Option Char :=
  if e == '"' then some '"'
  else if e == '\\' then some '\\'
  else if e == '/' then some '/'
  else if e == 'b' then some '\x08'
  else if e == 'f' then some '\x0c'
  else if e == 'n' then some '\n'
  else if e == 'r' then some '\r'
  else if e == 't' then some '\t'
  else none

/-- Parse the body of a JSON string after the opening quote, decoding the
escapes accepted by `json.loads` and rejecting raw control characters. -/
def parseStrBody : Nat → List Char → Option (List Char × List Char)
  | 0, _ => none
  | _, [] => none
  | fuel + 1, c :: rest =>
    if c == '"' then some ([], rest)
    else if c == '\\' then
      match rest with
      | 'u' :: a :: b :: c2 :: d :: r =>
        match hexVal a, hexVal b, hexVal c2, hexVal d with
        | some ha, some hb, some hc, some hd =>
          (parseStrBody fuel r).map
            (fun p => (Char.ofNat (((ha * 16 + hb) * 16 + hc) * 16 + hd) :: p.1, p.2))
        | _, _, _, _ => none
      | e :: r =>
        match escChar e with
        | some ce => (parseStrBody fuel r).map (fun p => (ce :: p.1, p.2))
        | none => none
      | [] => none
    else if c.toNat < 32 then none
    else (parseStrBody fuel rest).map (fun p => (c :: p.1, p.2))

/-- Python dict assignment while building an object: the key keeps its first
position, the value is overwritten. -/
def dictAssign (kvs : List (String × Json)) (kv : String × Json) : List (String × Json) :=
  if (kvs.any (fun p => p.1 == kv.1)) then
    kvs.map (fun p => if p.1 == kv.1 then (p.1, kv.2) else p)
  else kvs ++ [kv]

inductive PMode where
  | value : PMode
  | elems : List Json → PMode
  | fields : List (String × Json) → PMode

/-- Recursive-descent JSON parser (fuel-structural so that all proofs can
evaluate it by reduction).  `PMode.value` parses one value; `PMode.elems` /
`PMode.fields` parse array / object tails. -/
def pj : Nat → PMode → List Char → Option (Json × List Char)
  | 0, _, _ => none
  | fuel + 1, PMode.value, cs =>
    let cs := skipWs cs
    match cs with
    | '"' :: t =>
      (parseStrBody (fuel + 1) t).map (fun p => (Json.str (String.mk p.1), p.2))
    | '[' :: t =>
      match skipWs t with
      | ']' :: t2 => some (Json.arr [], t2)
      | _ => pj fuel (PMode.elems []) t
    | '{' :: t =>
      match skipWs t with
      | '}' :: t2 => some (Json.obj [], t2)
      | _ => pj fuel (PMode.fields []) t
    | _ =>
      if hasPrefixB "null".data cs then some (Json.null, cs.drop 4)
      else if hasPrefixB "true".data cs then some (Json.bool true, cs.drop 4)
      else if hasPrefixB "false".data cs then some (Json.bool false, cs.drop 5)
      else (parseNum cs).map (fun p => (Json.num p.1, p.2))
  | fuel + 1, PMode.elems acc, cs =>
    match pj fuel PMode.value cs with
    | none => none
    | some (v, r) =>
      match skipWs r with
      | ',' :: t => pj fuel (PMode.elems (v :: acc)) t
      | ']' :: t => some (Json.arr (v :: acc).reverse, t)
      | _ => none
  | fuel + 1, PMode.fields acc, cs =>
    match skipWs cs with
    | '"' :: t =>
      match parseStrBody (fuel + 1) t with
      | none => none
      | some (k, r) =>
        match skipWs r with
        | ':' :: t2 =>
          match pj fuel PMode.value t2 with
          | none => none
          | some (v, r2) =>
            match skipWs r2 with
            | ',' :: t3 => pj fuel (PMode.fields ((String.mk k, v) :: acc)) t3
            | '}' :: t3 =>
              some (Json.obj (((String.mk k, v) :: acc).reverse.foldl dictAssign []), t3)
            | _ => none
        | _ => none
    | _ => none

/-- `json.loads` on a character list: one value, optionally surrounded by
whitespace, nothing else. -/
def json_loads_list (cs : List Char) : Option Json :=
  match pj (4 * cs.length + 8) PMode.value cs with
  | some (v, rest) => if (skipWs rest).isEmpty then some v else none
  | none => none

def json_loads (s : String) : Option Json := json_loads_list s.data

/-! ## `worker/llm.py`: `parse_json_response` -/

/-- Split on newline exactly (`text.split("\n")`). -/
def splitOnNl : List Char → List (List Char)
  | [] => [[]]
  | '\n' :: t => [] :: splitOnNl t
  | c :: t =>
    match splitOnNl t with
    | [] => [[c]]
    | l :: ls => (c :: l) :: ls

def joinNl (ls : List (List Char)) : List Char := (ls.intersperse ['\n']).flatten

/-- The markdown fence marker (three backticks). -/
def fence : List Char := "\x60\x60\x60".data

/-- The fenced-block stripping loop of `parse_json_response`: lines starting
with a fence toggle `in_block` and are dropped; since such lines are always
dropped by the `continue`, every other line is kept (the `in_block or not
line.startswith` test is vacuously true for them, as in the source). -/
def stripFencedLines (t : List Char) : List Char :=
  let kept :=
    ((splitOnNl t).foldl
      (fun (st : Bool × List (List Char)) line =>
        if hasPrefixB fence line then (!st.1, st.2)
        else if st.1 || !hasPrefixB fence line then (st.1, line :: st.2)
        else (st.1, st.2))
      (false, [])).2.reverse
  joinNl kept

/-- `re.search(r'\x7b[^\x7b\x7d]*\x7d', text)`: the leftmost substring that
starts at an opening brace, continues with non-brace characters, and closes
with a brace. -/
def findJsonObjSub : List Char → Option (List Char)
  | [] => none
  | c :: rest =>
    if c == '{' then
      let seg := rest.takeWhile (fun x => !(x == '{' || x == '}'))
      match rest.drop seg.length with
      | '}' :: _ => some ('{' :: (seg ++ ['}']))
      | _ => findJsonObjSub rest
    else findJsonObjSub rest

/-- `parse_json_response` (`worker/llm.py`): strip, drop markdown fences,
`json.loads`; on failure retry on an embedded brace-delimited object; on
failure return the empty dict.  Total by construction. -/
def parse_json_response (text : String) : Json :=
  let t0 := pyStrip text.data
  let t := if hasPrefixB fence t0 then stripFencedLines t0 else t0
  match json_loads_list t with
  | some v => v
  | none =>
    match findJsonObjSub t with
    | some sub =>
      match json_loads_list sub with
      | some v => v
      | none => Json.obj []
    | none => Json.obj []

/-! ## Regular expressions

A regular-expression kernel (Brzozowski derivatives) for the skip patterns
of `shared/constants.py` and the sender patterns of `shared/utils.py`.  All
those patterns are anchored `^...$`, so Python's `pattern.match` coincides
with full-string matching (the texts matched are pre-stripped, so the
`$`-before-trailing-newline subtlety cannot arise). -/

inductive RE where
  | eps : RE
  | cls : (Char → Bool) → RE
  | seq : RE → RE → RE
  | alt : RE → RE → RE
  | star : RE → RE

def RE.nullable : RE → Bool
  | .eps => true
  | .cls _ => false
  | .seq a b => a.nullable && b.nullable
  | .alt a b => a.nullable || b.nullable
  | .star _ => true

/-- The empty regex (matches nothing). -/
def RE.void : RE := RE.cls (fun _ => false)

def RE.deriv (c : Char) : RE → RE
  | .eps => RE.void
  | .cls p => if p c then .eps else RE.void
  | .seq a b =>
    if a.nullable then .alt (.seq (a.deriv c) b) (b.deriv c)
    else .seq (a.deriv c) b
  | .alt a b => .alt (a.deriv c) (b.deriv c)
  | .star a => .seq (a.deriv c) (.star a)

/-- Full-string match. -/
def RE.fullmatch (r : RE) (cs : List Char) : Bool :=
  (cs.foldl (fun r c => r.deriv c) r).nullable

/-- A single character, compared case-insensitively (`re.IGNORECASE`; only
the ASCII `ok` pattern is affected, Korean characters fold to themselves). -/
def rchar (c : Char) : RE := RE.cls (fun x => x.toLower == c.toLower)

def rstr (s : String) : RE := s.data.foldr (fun c acc => RE.seq (rchar c) acc) RE.eps

def ropt (r : RE) : RE := RE.alt RE.eps r

def rplus (r : RE) : RE := RE.seq r (RE.star r)

/-- `\s` (ASCII whitespace; the matched texts contain no unicode spaces). -/
def rws : RE := RE.cls pySpace

/-- The trailing-punctuation class `[.!~]*` shared by the skip patterns. -/
def rpunct : RE := RE.star (RE.cls (fun c => c == '.' || c == '!' || c == '~'))

/-! ## `shared/constants.py` -/

structure IntentDefinition where
  name : String
  needs_reply : Bool
  description_ko : String
  examples : List String

/-- The `INTENTS` table, the single source of truth for intent →
`needs_reply` polarity (insertion-ordered dict). -/
def INTENTS : List (String × IntentDefinition) := [
  ("inquiry_status",
    ⟨"inquiry_status", true, "상태/진행 확인 문의", ["발송됐나요?", "처리됐나요?", "언제 되나요?"]⟩),
  ("request_action",
    ⟨"request_action", true, "작업 요청", ["해주세요", "부탁드립니다", "진행해주세요"]⟩),
  ("request_change",
    ⟨"request_change", true, "변경/수정 요청", ["수정해주세요", "변경 부탁드립니다", "취소해주세요"]⟩),
  ("complaint",
    ⟨"complaint", true, "불만/클레임", ["왜 안 되는 거죠?", "문제가 있어요", "이게 뭐예요"]⟩),
  ("question_how",
    ⟨"question_how", true, "방법/사용법 문의", ["어떻게 해요?", "방법이 뭐예요?"]⟩),
  ("question_when",
    ⟨"question_when", true, "일정/시간 문의", ["언제 가능해요?", "시간이 어떻게 되나요?"]⟩),
  ("follow_up",
    ⟨"follow_up", true, "이전 요청에 대한 추가 정보 제공", ["아까 말씀드린 건 이거예요", "추가로 보내드려요"]⟩),
  ("provide_info",
    ⟨"provide_info", false, "정보/자료 제공", ["사진 보내드립니다", "자료입니다", "파일 전송"]⟩),
  ("acknowledgment",
    ⟨"acknowledgment", false, "확인/동의", ["네", "알겠습니다", "확인했습니다", "감사합니다"]⟩),
  ("greeting",
    ⟨"greeting", false, "인사", ["안녕하세요", "수고하세요"]⟩),
  ("internal_discussion",
    ⟨"internal_discussion", false, "병원 스태프끼리 대화", ["과장님 이거 확인해주세요", "내가 할게", "스태프 간 호칭 사용"]⟩),
  ("reaction",
    ⟨"reaction", false, "단순 리액션", ["ㅎㅎ", "ㅋㅋ", "👍", "ㅇㅇ", "이모지만 있는 경우"]⟩),
  ("confirmation_received",
    ⟨"confirmation_received", false, "직원 안내 완료 후 고객 확인", ["직원이 보내드렸습니다 후 → 감사합니다, 알겠습니다~"]⟩),
  ("other",
    ⟨"other", false, "위에 해당하지 않는 기타", []⟩)]

/-- `get_needs_reply`: table lookup, defaulting to `True` (with a warning)
for unknown intents. -/
def get_needs_reply (intent : String) : Bool :=
  match alookup intent INTENTS with
  | some d => d.needs_reply
  | none => true

/-- `SKIP_LLM_PATTERNS` compiled (`COMPILED_SKIP_PATTERNS`), grouped by
intent in dict insertion order; each entry carries the source regex in a
comment. -/
def COMPILED_SKIP_PATTERNS : List (String × List RE) := [
  ("acknowledgment", [
    -- r"^(아\s*)?네?\s*감사합니다[.!~]*$"
    RE.seq (ropt (RE.seq (rchar '아') (RE.star rws)))
      (RE.seq (ropt (rchar '네'))
        (RE.seq (RE.star rws) (RE.seq (rstr "감사합니다") rpunct))),
    -- r"^감사드려요[.!~]*$"
    RE.seq (rstr "감사드려요") rpunct,
    -- r"^감사해요[.!~]*$"
    RE.seq (rstr "감사해요") rpunct,
    -- r"^고마워요[.!~]*$"
    RE.seq (rstr "고마워요") rpunct,
    -- r"^고맙습니다[.!~]*$"
    RE.seq (rstr "고맙습니다") rpunct,
    -- r"^(아\s*)?(네|넵|넹|네네)[.!~]*$"
    RE.seq (ropt (RE.seq (rchar '아') (RE.star rws)))
      (RE.seq (RE.alt (rstr "네") (RE.alt (rstr "넵") (RE.alt (rstr "넹") (rstr "네네")))) rpunct),
    -- r"^알겠습니다[.!~]*$"
    RE.seq (rstr "알겠습니다") rpunct,
    -- r"^알겠어요[.!~]*$"
    RE.seq (rstr "알겠어요") rpunct,
    -- r"^확인했습니다[.!~]*$"
    RE.seq (rstr "확인했습니다") rpunct,
    -- r"^확인했어요[.!~]*$"
    RE.seq (rstr "확인했어요") rpunct,
    -- r"^확인됐습니다[.!~]*$"
    RE.seq (rstr "확인됐습니다") rpunct]),
  ("reaction", [
    -- r"^ㅇㅇ$"
    rstr "ㅇㅇ",
    -- r"^ㅋㅋ+$"
    RE.seq (rchar 'ㅋ') (rplus (rchar 'ㅋ')),
    -- r"^ㅎㅎ+$"
    RE.seq (rchar 'ㅎ') (rplus (rchar 'ㅎ')),
    -- r"^ㅇㅋ$"
    rstr "ㅇㅋ",
    -- r"^오키$"
    rstr "오키",
    -- r"^오케이$"
    rstr "오케이",
    -- r"^ok$"
    rstr "ok"])]

/-! ## `shared/utils.py` -/

/-- `KNOWN_STAFF` in `classify_sender`. -/
def KNOWN_STAFF : List String := ["한기훈"]

/-- `^\[모션랩스_(.+)\]$` — `.` does not match a newline. -/
def bracketStaffRE : RE :=
  RE.seq (rstr "[모션랩스_") (RE.seq (rplus (RE.cls (fun c => !(c == '\n')))) (rchar ']'))

/-- `^모션랩스_(.+)$` -/
def plainStaffRE : RE :=
  RE.seq (rstr "모션랩스_") (rplus (RE.cls (fun c => !(c == '\n'))))

/-- `classify_sender`: staff naming conventions, everyone else is a
customer.  The captured group of the regexes is recovered by dropping the
literal affixes. -/
def classify_sender (sender_name : String) : String × Option String :=
  if KNOWN_STAFF.contains sender_name then ("staff", some sender_name)
  else
    let cs := sender_name.data
    if bracketStaffRE.fullmatch cs then
      ("staff", some (String.mk (cs.drop 6).dropLast))
    else if plainStaffRE.fullmatch cs then
      ("staff", some (String.mk (cs.drop 5)))
    else ("customer", none)

/-- `ESCALATE_KEYWORDS`. -/
def ESCALATE_KEYWORDS : List String :=
  ["오류", "먹통", "전체", "안됨", "장애",
   "환불", "해지", "클레임", "긴급", "급해",
   "안되요", "작동", "고장", "문제"]

/-- `should_escalate_to_sonnet(text)` (the `haiku_confidence` parameter is
always left at its default `None` by `classify_event`, so only the keyword
scan is live). -/
def should_escalate_to_sonnet (text : String) : Bool :=
  let text_lower := pyLower text.data
  ESCALATE_KEYWORDS.any (fun k => containsSub text_lower k.data)

/-- `match_skip_pattern`: static (hard-coded) patterns first, then the
dynamically learned patterns (a DB-backed TTL cache, supplied here as an
explicit parameter).  All static patterns are `^...$`-anchored so `.match`
equals full match; dynamic patterns are checked with `.fullmatch` in the
source. -/
def match_skip_pattern (dynamic : List (String × List RE)) (text : String) :
    Bool × Option String :=
  let ts := pyStrip text.data
  match (COMPILED_SKIP_PATTERNS.find? (fun p => p.2.any (fun r => r.fullmatch ts))).map Prod.fst with
  | some intent => (true, some intent)
  | none =>
    match (dynamic.find? (fun p => p.2.any (fun r => r.fullmatch ts))).map Prod.fst with
    | some intent => (true, some intent)
    | none => (false, none)

/-! ## `worker/llm.py`: tiered classification

The Anthropic client, the conversation-context query, the clinic-profile
hint and the learned-prompt additions are external collaborators; they enter
through `LLMEnv`.  The list of models for which an HTTP call was attempted
is returned as an explicit trace. -/

/-- `settings.anthropic_model_default` (`shared/config.py`). -/
def anthropic_model_default : String := "claude-3-haiku-20240307"

/-- `settings.anthropic_model_escalate` (`shared/config.py`). -/
def anthropic_model_escalate : String := "claude-3-5-sonnet-20241022"

/-- Python `k in result` on a parsed JSON value: key membership for dicts,
element membership for lists, substring for strings, `TypeError` otherwise. -/
def py_in (k : String) : Json → Except String Bool
  | .obj kvs => .ok (kvs.any (fun p => p.1 == k))
  | .arr xs => .ok (xs.any (fun v => match v with | .str s => s == k | _ => false))
  | .str s => .ok (containsSub s.data k.data)
  | _ => .error "TypeError: argument of type int is not iterable"

/-- `result.get(key, default)`: `AttributeError` on non-dict values. -/
def dict_get (v : Json) (k : String) (dflt : Json) : Except String Json :=
  match v with
  | .obj kvs => .ok ((alookup k kvs).getD dflt)
  | _ => .error "AttributeError: object has no attribute get"

/-- `result[key] = x`: `TypeError` on non-dict values. -/
def dict_setitem (v : Json) (k : String) (x : Json) : Except String Json :=
  match v with
  | .obj kvs => .ok (.obj (dictAssign kvs (k, x)))
  | _ => .error "TypeError: object does not support item assignment"

/-- `get_needs_reply` applied to the raw JSON value found under `"intent"`:
dict-key membership needs a hashable value (lists/dicts raise `TypeError`);
hashable non-strings are simply not keys of `INTENTS`. -/
def get_needs_reply_json : Json → Except String Bool
  | .str s => .ok (get_needs_reply s)
  | .arr _ => .error "TypeError: unhashable type list"
  | .obj _ => .error "TypeError: unhashable type dict"
  | _ => .ok true

/-- `confidence < 0.65`: numbers and booleans compare numerically, anything
else raises `TypeError`. -/
def py_lt_num : Json → Dec → Except String Bool
  | .num a, t => .ok (Dec.ltB a t)
  | .bool b, t => .ok (Dec.ltB ⟨if b then 1 else 0, 0⟩ t)
  | _, _ => .error "TypeError: not supported between instances of str and float"

/-- The short-circuit result returned when a skip pattern matches. -/
def skip_result (text : String) (matched_intent : String) : Json :=
  .obj [("topic", .str "인사/감사"),
        ("urgency", .str "low"),
        ("sentiment", .str (if matched_intent == "acknowledgment" then "positive" else "neutral")),
        ("intent", .str matched_intent),
        ("needs_reply", .bool (get_needs_reply matched_intent)),
        ("summary", .str (String.mk (pySlice 20 text.data))),
        ("confidence", .num ⟨1, 0⟩)]

/-- The fallback synthesized when required fields are missing
(`confidence` 0.5). -/
def parse_fallback (text : String) : Json :=
  .obj [("topic", .str "기타 문의"),
        ("urgency", .str "medium"),
        ("sentiment", .str "neutral"),
        ("intent", .str "other"),
        ("needs_reply", .bool true),
        ("summary", .str (String.mk (pySlice 20 text.data))),
        ("confidence", .num ⟨5, 1⟩)]

/-- The fallback returned when the call or post-processing raises
(`confidence` 0.3, plus the exception text). -/
def error_fallback (text : String) (e : String) : Json :=
  .obj [("topic", .str "기타 문의"),
        ("urgency", .str "medium"),
        ("sentiment", .str "neutral"),
        ("intent", .str "other"),
        ("needs_reply", .bool true),
        ("summary", .str (String.mk (pySlice 20 text.data))),
        ("confidence", .num ⟨3, 1⟩),
        ("error", .str e)]

/-- `TOPIC_LIST` (`worker/llm.py`). -/
def TOPIC_LIST : String :=
  "Topic 목록:\n- 발송/전송 문제\n- 예약 관련\n- 결제/정산\n- 기능 문의\n- 오류/장애\n- 계정/로그인\n- 리뷰 관련\n- 기타 문의\n- 인사/감사"

def quoteJoin (es : List String) : String :=
  String.intercalate ", " (es.map (fun e => "\"" ++ e ++ "\""))

/-- `build_intent_prompt_section` (`shared/constants.py`). -/
def build_intent_prompt_section : String :=
  let need := INTENTS.filter (fun p => p.2.needs_reply)
  let noNeed := INTENTS.filter (fun p => !p.2.needs_reply)
  let l1 := need.map (fun p =>
    "- " ++ p.1 ++ ": " ++ p.2.description_ko ++ " (예: " ++ quoteJoin (p.2.examples.take 3) ++ ")")
  let l2 := noNeed.map (fun p =>
    if p.2.examples.isEmpty then "- " ++ p.1 ++ ": " ++ p.2.description_ko
    else "- " ++ p.1 ++ ": " ++ p.2.description_ko ++ " (예: " ++ quoteJoin (p.2.examples.take 3) ++ ")")
  String.intercalate "\n"
    (["Intent (의도) - " ++ toString INTENTS.length ++ "가지 중 선택:", "", "[답변 필요 - needs_reply=true]"]
      ++ l1 ++ ["", "[답변 불필요 - needs_reply=false]"] ++ l2)

/-- `build_needs_reply_guide` (`shared/constants.py`). -/
def build_needs_reply_guide : String :=
  let need := (INTENTS.filter (fun p => p.2.needs_reply)).map Prod.fst
  let noNeed := (INTENTS.filter (fun p => !p.2.needs_reply)).map Prod.fst
  "needs_reply 판단 기준:\n- true: " ++ String.intercalate ", " need ++
    " (답변 필요)\n- false: " ++ String.intercalate ", " noNeed ++
    " (답변 불필요)\n- 맥락 고려: 이전 대화 흐름을 보고 판단. 특히:\n" ++
    "  * 고객 메시지가 연속되고 스태프 간 호칭/업무 지시가 있으면 → internal_discussion\n" ++
    "  * 직원이 안내 완료 후 고객의 \"감사\", \"알겠습니다\" → confirmation_received\n" ++
    "  * 판단이 애매하면 needs_reply=true (응대 누락 방지 우선)"

/-- `build_event_classification_system` = the cached
`EVENT_CLASSIFICATION_SYSTEM` prompt. -/
def EVENT_CLASSIFICATION_SYSTEM : String :=
  "당신은 병원 CS 메시지 분류 전문가입니다.\n카카오톡 메시지를 분석하여 JSON 형식으로 분류 결과를 반환합니다.\n\n" ++
  "분류 기준:\n- topic: 메시지의 주제 (아래 목록 중 선택)\n- urgency: 긴급도 (critical/high/medium/low)\n" ++
  "- sentiment: 감정 (positive/neutral/negative/angry)\n- intent: 의도 (아래 목록 중 선택)\n" ++
  "- needs_reply: 답변이 필요한 메시지인지 (true/false)\n- summary: 핵심 내용 1줄 요약 (20자 이내)\n" ++
  "- confidence: 분류 확신도 (0.0~1.0)\n\n" ++ build_intent_prompt_section ++ "\n\n" ++
  TOPIC_LIST ++ "\n\n" ++ build_needs_reply_guide ++
  "\n\n반드시 유효한 JSON만 출력하세요. 설명 없이 JSON만 출력합니다."

/-- Environment of `classify_event`: the DB-backed context helpers (each of
which swallows its own failures and so only contributes prompt text) and the
Anthropic call. -/
structure LLMEnv where
  /-- Approved dynamic skip patterns (the TTL cache of `load_dynamic_patterns`). -/
  dynamic_patterns : List (String × List RE)
  /-- Result of `get_recent_conversation_context` — (sender_type, text
  truncated to 100 chars) per prior message, oldest first. -/
  conversation_context : List (String × String)
  /-- Result of `_get_clinic_hint` ("" when no profile). -/
  clinic_hint : String
  /-- Corrections/CSUnderstanding additions of `build_classification_prompt`. -/
  prompt_additions : String
  /-- `client.messages.create`: model, system prompt, user prompt → response
  text, or the exception raised by the call. -/
  respond : String → String → String → Except String String

/-- The `context_str` block of `classify_event`. -/
def context_str (env : LLMEnv) : String :=
  if env.conversation_context.isEmpty then ""
  else
    let context_lines := env.conversation_context.map (fun m =>
      "  [" ++ (if m.1 == "customer" then "고객" else "직원") ++ "] " ++ m.2)
    "\n이전 대화 맥락 (최근 " ++ toString env.conversation_context.length ++ "개):\n" ++
      String.intercalate "\n" context_lines ++ "\n"

/-- The user prompt of `classify_event`. -/
def user_prompt (env : LLMEnv) (chat_room sender_type text : String) : String :=
  "채팅방: " ++ chat_room ++ "\n발신자 유형: " ++ sender_type ++ "\n" ++
  env.clinic_hint ++ context_str env ++ "\n현재 메시지: " ++ text ++
  "\n\n위 메시지를 분석하여 JSON으로 반환하세요. 이전 대화 맥락이 있다면 참고하여 의도와 긴급도를 판단하세요."

/-- `build_classification_prompt(EVENT_CLASSIFICATION_SYSTEM)`. -/
def system_prompt (env : LLMEnv) : String :=
  EVENT_CLASSIFICATION_SYSTEM ++ env.prompt_additions

/-- Result of one `classify_event` invocation: the classification dict, the
`model_used` component of the returned tuple, and the trace of models for
which an LLM call was attempted. -/
structure ClassifyOut where
  result : Json
  model_used : String
  calls : List String
deriving Repr

/-- The post-processing of a successful LLM response inside the `try` block
of `classify_event`: required-field validation with the 0.5-confidence
fallback, `needs_reply` resolution from the intent table, and the
re-escalation decision (`confidence < 0.65` checked only on the default
model).  Exceptions raised by any of the Python operations propagate. -/
def classify_post (model text : String) (result0 : Json) : Except String (Json × Bool) := do
  let t1 ← py_in "topic" result0
  let t2 ← py_in "urgency" result0
  let t3 ← py_in "confidence" result0
  let result1 := if !(t1 && t2 && t3) then parse_fallback text else result0
  let hasNR ← py_in "needs_reply" result1
  let result2 ←
    if !hasNR then do
      let intentv ← dict_get result1 "intent" (Json.str "other")
      let nr ← get_needs_reply_json intentv
      dict_setitem result1 "needs_reply" (Json.bool nr)
    else pure result1
  if model == anthropic_model_default then do
    let conf ← dict_get result2 "confidence" (Json.num ⟨1, 0⟩)
    let low ← py_lt_num conf ⟨65, 2⟩
    pure (result2, low)
  else pure (result2, false)

/-- One body execution of `classify_event` (without the recursive
re-invocation).  The second component reports whether the source would
re-invoke itself with `force_sonnet=True` (Haiku model and confidence below
0.65).  Any exception raised inside the `try` block lands in the
`error_fallback` branch, which never re-escalates. -/
def classify_attempt (env : LLMEnv) (chat_room sender_type text : String)
    (force_sonnet : Bool) : ClassifyOut × Bool :=
  match match_skip_pattern env.dynamic_patterns text with
  | (true, some matched_intent) => (⟨skip_result text matched_intent, "skip", []⟩, false)
  | _ =>
    let model :=
      if force_sonnet || should_escalate_to_sonnet text then anthropic_model_escalate
      else anthropic_model_default
    match env.respond model (system_prompt env) (user_prompt env chat_room sender_type text) with
    | .error e => (⟨error_fallback text e, "error", [model]⟩, false)
    | .ok rtext =>
      match classify_post model text (parse_json_response rtext) with
      | .ok (result, esc) => (⟨result, model, [model]⟩, esc)
      | .error e => (⟨error_fallback text e, "error", [model]⟩, false)

/-- `classify_event`.  The source re-invokes itself with
`force_sonnet=True` on low Haiku confidence; under the concrete (distinct)
model settings that recursion is executed at most once, which the embedding
makes structural: the escalated run computes its re-escalation flag as
`False` because its model is not the default one. -/
def classify_event (env : LLMEnv) (chat_room sender_type text : String)
    (force_sonnet : Bool) : ClassifyOut :=
  let first := classify_attempt env chat_room sender_type text force_sonnet
  if first.2 then
    let second := classify_attempt env chat_room sender_type text true
    ⟨second.1.result, second.1.model_used, first.1.calls ++ second.1.calls⟩
  else first.1

/-! ## Data model (`shared/models.py`, rows touched by the pipeline)

Row identities (`uuid4` values in the source) are modelled as `Nat`; the
freshness of new ticket ids is provided by a counter in the state. -/

structure MessageEventRow where
  event_id : Nat
  chat_room : String
  sender_name : String
  sender_type : String
  text_raw : String
  received_at : Int
  ingest_status : String
deriving Repr, DecidableEq

structure TicketRow where
  ticket_id : Nat
  clinic_key : String
  status : String
  priority : String
  topic_primary : Option String
  summary_latest : Option String
  intent : Option String
  first_inbound_at : Option Int
  first_response_sec : Option Int
  last_inbound_at : Option Int
  last_outbound_at : Option Int
  last_message_sender : Option String
  needs_reply : Bool
  sla_breached : Bool
  sla_alerted_at : Option Int
  /-- `updated_at` (set by SQLAlchemy `onupdate` when the row is written). -/
  updated_at : Int
deriving Repr, DecidableEq

structure LinkRow where
  ticket_id : Nat
  event_id : Nat
  link_type : String
deriving Repr, DecidableEq

/-- An `LLMAnnotation` row as written by `save_llm_annotation`. -/
def LLMAnnotRowTarget : String := "event"

structure LLMAnnotRow where
  target_type : String
  target_id : Nat
  model : String
  topic : Option String
  urgency : Option String
  sentiment : Option String
  intent : Option String
  needs_reply : Bool
  summary : Option String
  confidence : Option Dec
deriving Repr, DecidableEq

structure AlertLogRow where
  ticket_id : Nat
  alert_type : String
  response_status : Option Nat
  error_message : Option String
deriving Repr, DecidableEq

/-- The database state visible to one worker session, plus the id counter
standing in for `uuid4`. -/
structure DB where
  events : List MessageEventRow
  tickets : List TicketRow
  links : List LinkRow
  annot_rows : List LLMAnnotRow
  alert_logs : List AlertLogRow
  next_ticket_id : Nat
deriving Repr, DecidableEq

/-- A delivery-attempt log row has a confirmed-successful status when the
recorded HTTP status is 2xx (`httpx.Response.is_success`). -/
def successStatus (l : AlertLogRow) : Bool :=
  match l.response_status with
  | some s => 200 ≤ s && s < 300
  | none => false

/-! ## `worker/main.py` -/

/-- The classification dict as produced by `classify_event` for the worker
(`topic`/`urgency`/`sentiment`/`intent`/`summary` are strings when present,
`needs_reply` a bool, `confidence` a number — the shapes every reachable
dict of `classify_event` has). -/
structure Classification where
  topic : Option String
  urgency : Option String
  sentiment : Option String
  intent : Option String
  summary : Option String
  needs_reply : Option Bool
  confidence : Option Dec
deriving Repr, DecidableEq

/-- Outward side effects performed by the worker (Slack webhook posts). -/
inductive Effect where
  | urgent_alert : Nat → String → String → Effect
  | sla_alert : Nat → String → String → Int → Effect
deriving Repr, DecidableEq

/-- Environment of one worker cycle: the classifier outcome per event (the
LLM being an external collaborator), injected per-event processing failures
(e.g. a database error during the ticket update), the clock, the SLA
threshold setting and the webhook delivery outcome per ticket. -/
structure WorkerEnv where
  classify : MessageEventRow → Classification × String
  update_fails : Nat → Bool
  now : Int
  sla_threshold_minutes : Int
  alert_delivery : Nat → Bool × Option Nat × Option String

/-- `URGENCY_TO_PRIORITY` (`worker/llm.py`). -/
def URGENCY_TO_PRIORITY : List (String × String) :=
  [("critical", "urgent"), ("high", "high"), ("medium", "normal"), ("low", "low")]

def PRIORITY_ORDER : List String := ["low", "normal", "high", "urgent"]

/-- `get_priority_from_urgency`. -/
def get_priority_from_urgency (urgency : String) : String :=
  (alookup urgency URGENCY_TO_PRIORITY).getD "normal"

/-- `should_upgrade_priority` (a `ValueError` from `.index` is caught and
yields `False`). -/
def should_upgrade_priority (current new : String) : Bool :=
  match PRIORITY_ORDER.findIdx? (· == new), PRIORITY_ORDER.findIdx? (· == current) with
  | some i, some j => j < i
  | _, _ => false

/-- Stable insertion by ascending `received_at` (`ORDER BY received_at ASC`). -/
def insertByTime (e : MessageEventRow) : List MessageEventRow → List MessageEventRow
  | [] => [e]
  | x :: xs => if e.received_at < x.received_at then e :: x :: xs else x :: insertByTime e xs

def sortByTime (l : List MessageEventRow) : List MessageEventRow :=
  l.foldr insertByTime []

/-- `get_unprocessed_events`: a pure `SELECT` — events with status
`received`, by ascending receipt time, first `limit` rows.  No status is
written and nothing is locked. -/
def get_unprocessed_events (db : DB) (limit : Nat) : List MessageEventRow :=
  (sortByTime (db.events.filter (fun e => e.ingest_status == "received"))).take limit

/-- `find_open_ticket`: the most recently updated ticket of the clinic (all
lifecycle stages count as open). -/
def find_open_ticket (db : DB) (clinic_key : String) : Option TicketRow :=
  match db.tickets.filter (fun t => t.clinic_key == clinic_key) with
  | [] => none
  | t :: ts => some (ts.foldl (fun best x => if best.updated_at < x.updated_at then x else best) t)

/-- `link_event_to_ticket`. -/
def link_event_to_ticket (db : DB) (ticket_id event_id : Nat) : DB :=
  { db with links := db.links ++ [⟨ticket_id, event_id, "append"⟩] }

/-- `save_llm_annotation` (`annotation.needs_reply` defaults to `True` when
the classification does not specify it). -/
def save_llm_annot (db : DB) (event_id : Nat) (model : String) (c : Classification) : DB :=
  { db with annot_rows := db.annot_rows ++
      [⟨"event", event_id, model, c.topic, c.urgency, c.sentiment, c.intent,
        c.needs_reply.getD true, c.summary, c.confidence⟩] }

/-- Write back one ticket row by primary key. -/
def replaceTicket (db : DB) (t : TicketRow) : DB :=
  { db with tickets := db.tickets.map (fun x => if x.ticket_id == t.ticket_id then t else x) }

def updateEventStatus (db : DB) (event_id : Nat) (st : String) : DB :=
  { db with events := db.events.map (fun e =>
      if e.event_id == event_id then { e with ingest_status := st } else e) }

/-- The field updates `handle_customer_event` applies to an existing ticket
(the branch with a found open ticket): timestamps/sender, the `needs_reply`
overwrite, SLA clearing on a no-reply-needed message, the SLA window reset
on re-inquiry, the monotone priority upgrade, and the truthy
summary/topic/intent refresh.  `updated_at` is written by the SQLAlchemy
`onupdate` hook when the row is flushed. -/
def updated_customer_ticket (env : WorkerEnv) (event : MessageEventRow)
    (c : Classification) (ticket : TicketRow) : TicketRow :=
  let message_needs_reply := c.needs_reply.getD true
  let t := { ticket with
    last_inbound_at := some event.received_at,
    last_message_sender := some event.sender_name,
    needs_reply := message_needs_reply }
  let t := if !message_needs_reply then { t with sla_breached := false } else t
  let t :=
    if message_needs_reply && t.first_response_sec.isSome then
      { t with sla_breached := false,
               first_inbound_at := some event.received_at,
               first_response_sec := none }
    else t
  let new_priority := get_priority_from_urgency (c.urgency.getD "medium")
  let t := if should_upgrade_priority t.priority new_priority then { t with priority := new_priority } else t
  -- `if classification.get("summary"):` — Python truthiness, so an empty
  -- string does not update; same for topic and intent.
  let t := match c.summary with
    | some s => if s == "" then t else { t with summary_latest := some s }
    | none => t
  let t := match c.topic with
    | some s => if s == "" then t else { t with topic_primary := some s }
    | none => t
  let t := match c.intent with
    | some s => if s == "" then t else { t with intent := some s }
    | none => t
  { t with updated_at := env.now }

/-- `handle_customer_event`.  Returns the session state, the ticket the
source returns, and the webhook effects performed. -/
def handle_customer_event (env : WorkerEnv) (db : DB) (event : MessageEventRow)
    (c : Classification) : DB × TicketRow × List Effect :=
  let clinic_key := event.chat_room
  let message_needs_reply := c.needs_reply.getD true
  match find_open_ticket db clinic_key with
  | some ticket =>
    let db := link_event_to_ticket db ticket.ticket_id event.event_id
    let t := updated_customer_ticket env event c ticket
    (replaceTicket db t, t, [])
  | none =>
    let new_priority := get_priority_from_urgency (c.urgency.getD "medium")
    let t : TicketRow :=
      { ticket_id := db.next_ticket_id,
        clinic_key := clinic_key,
        status := "onboarding",
        priority := new_priority,
        topic_primary := c.topic,
        summary_latest := c.summary,
        intent := c.intent,
        first_inbound_at := some event.received_at,
        first_response_sec := none,
        last_inbound_at := some event.received_at,
        last_outbound_at := none,
        last_message_sender := some event.sender_name,
        needs_reply := message_needs_reply,
        sla_breached := false,
        sla_alerted_at := none,
        updated_at := env.now }
    let db := { db with tickets := db.tickets ++ [t], next_ticket_id := db.next_ticket_id + 1 }
    let db := link_event_to_ticket db t.ticket_id event.event_id
    let effs :=
      if new_priority == "urgent" || new_priority == "high" then
        [Effect.urgent_alert t.ticket_id clinic_key (c.urgency.getD "high")]
      else []
    (db, t, effs)

/-- `handle_staff_event`. -/
def handle_staff_event (env : WorkerEnv) (db : DB) (event : MessageEventRow) :
    DB × TicketRow × List Effect :=
  let clinic_key := event.chat_room
  let (db, ticket) : DB × TicketRow :=
    match find_open_ticket db clinic_key with
    | some t => (db, t)
    | none =>
      let t : TicketRow :=
        { ticket_id := db.next_ticket_id,
          clinic_key := clinic_key,
          status := "onboarding",
          priority := "normal",
          topic_primary := none,
          summary_latest := none,
          intent := none,
          first_inbound_at := none,
          first_response_sec := none,
          last_inbound_at := none,
          last_outbound_at := some event.received_at,
          last_message_sender := some event.sender_name,
          needs_reply := false,
          sla_breached := false,
          sla_alerted_at := none,
          updated_at := env.now }
      ({ db with tickets := db.tickets ++ [t], next_ticket_id := db.next_ticket_id + 1 }, t)
  let db := link_event_to_ticket db ticket.ticket_id event.event_id
  let t :=
    match ticket.first_response_sec, ticket.first_inbound_at with
    | none, some fi => { ticket with first_response_sec := some (event.received_at - fi) }
    | _, _ => ticket
  let t := { t with
    last_outbound_at := some event.received_at,
    last_message_sender := some event.sender_name,
    needs_reply := false,
    sla_breached := false,
    updated_at := env.now }
  (replaceTicket db t, t, [])

/-- The SLA-breach candidate filter of `check_sla_breaches` (`first_response_sec`
null, `first_inbound_at` at or before the threshold — SQL `NULL` comparisons
exclude tickets without one — not yet breached, `needs_reply`). -/
def slaCandidate (env : WorkerEnv) (t : TicketRow) : Bool :=
  t.first_response_sec.isNone &&
    (match t.first_inbound_at with
     | some fi => fi ≤ env.now - env.sla_threshold_minutes * 60
     | none => false) &&
    !t.sla_breached && t.needs_reply

/-- Latest customer message linked to the ticket (`"(메시지 없음)"` when none). -/
def latest_customer_text (db : DB) (ticket_id : Nat) : String :=
  let evs := db.events.filter (fun e =>
    e.sender_type == "customer" &&
      db.links.any (fun l => l.ticket_id == ticket_id && l.event_id == e.event_id))
  match evs with
  | [] => "(메시지 없음)"
  | e :: es => (es.foldl (fun best x => if best.received_at < x.received_at then x else best) e).text_raw

/-- The mutation applied to a candidate ticket by the breach loop (before
the delivery outcome is even known). -/
def slaBump (env : WorkerEnv) (ticket : TicketRow) : TicketRow :=
  { ticket with sla_breached := true, sla_alerted_at := some env.now, updated_at := env.now }

/-- The log row appended by the breach loop for one candidate. -/
def slaLogRow (env : WorkerEnv) (ticket_id : Nat) : AlertLogRow :=
  ⟨ticket_id, "slack", (env.alert_delivery ticket_id).2.1, (env.alert_delivery ticket_id).2.2⟩

/-- One iteration of the breach loop: mark the ticket breached, send the
Slack alert, and append a delivery-attempt log row whose status records the
webhook outcome — the `success` flag is not consulted. -/
def slaStep (env : WorkerEnv) (acc : DB × List Effect) (ticket : TicketRow) : DB × List Effect :=
  let t := slaBump env ticket
  let db := replaceTicket acc.1 t
  let customer_message := latest_customer_text db ticket.ticket_id
  let elapsed_minutes : Int := (env.now - (ticket.first_inbound_at.getD 0)) / 60
  -- `(success, status_code, error)` from `send_sla_alert`; `success` is unused.
  let d := env.alert_delivery ticket.ticket_id
  let db := { db with alert_logs := db.alert_logs ++
      [⟨ticket.ticket_id, "slack", d.2.1, d.2.2⟩] }
  (db, acc.2 ++ [Effect.sla_alert ticket.ticket_id ticket.clinic_key customer_message elapsed_minutes])

/-- `check_sla_breaches`: select the candidates, then mark/alert/log each;
returns the new session state, the breach count, and the webhook effects. -/
def check_sla_breaches (env : WorkerEnv) (db : DB) : DB × Nat × List Effect :=
  let breached_tickets := db.tickets.filter (slaCandidate env)
  let (db2, effs) := breached_tickets.foldl (slaStep env) (db, [])
  (db2, breached_tickets.length, effs)

/-- `process_event` inside its `try`: classify and annotate customer events,
fold into the ticket, then mark the event `processed`.  An exception during
the ticket update (injected through `env.update_fails`, modelling e.g. a
database error) is caught by the `except` branch, which assigns
`ingest_status = "error"` on the session object and re-raises — the
returned `.error` carries that still-uncommitted session state. -/
def process_event (env : WorkerEnv) (db : DB) (event : MessageEventRow) :
    Except (DB × List Effect) (DB × List Effect) :=
  if event.sender_type == "customer" then
    let cm := env.classify event
    let db1 := save_llm_annot db event.event_id cm.2 cm.1
    if env.update_fails event.event_id then
      .error (updateEventStatus db1 event.event_id "error", [])
    else
      let r := handle_customer_event env db1 event cm.1
      .ok (updateEventStatus r.1 event.event_id "processed", r.2.2)
  else
    if env.update_fails event.event_id then
      .error (updateEventStatus db event.event_id "error", [])
    else
      let r := handle_staff_event env db event
      .ok (updateEventStatus r.1 event.event_id "processed", r.2.2)

/-- The per-event body of `run_worker_cycle`: `db.commit()` on success keeps
the new state; on failure `db.rollback()` discards the whole uncommitted
session state — including the `"error"` status assigned by `process_event`'s
handler.  Webhook calls already made are not undone. -/
def cycleStep (env : WorkerEnv) (acc : DB × List Effect) (event : MessageEventRow) :
    DB × List Effect :=
  match process_event env acc.1 event with
  | .ok (db2, effs) => (db2, acc.2 ++ effs)
  | .error (_pending, effs) => (acc.1, acc.2 ++ effs)

/-- `run_worker_cycle`: claim a batch of (up to 50) `received` events,
process each with commit/rollback, then run the SLA check and commit it if
it marked anything. -/
def run_worker_cycle (env : WorkerEnv) (db : DB) : DB × List Effect :=
  let events := get_unprocessed_events db 50
  let (db1, effs1) := events.foldl (cycleStep env) (db, [])
  let (db2, breach_count, effs2) := check_sla_breaches env db1
  (if 0 < breach_count then db2 else db1, effs1 ++ effs2)

/-! ## `ingest_api/main.py`: `create_event` -/

structure EventCreate where
  device_id : String
  chat_room : String
  sender_name : String
  text : String
  received_at : Int
deriving Repr, DecidableEq

inductive IngestResult where
  /-- A normal `EventResponse`. -/
  | response : Bool → Bool → IngestResult
  /-- An `HTTPException` raised by the handler (status, error code). -/
  | httpError : Nat → String → IngestResult
  /-- An exception escaping the handler (FastAPI returns a 500). -/
  | unhandled : String → IngestResult
deriving Repr, DecidableEq

/-- `create_event` (`ingest_api/main.py`), after device-key authentication:
validate the timestamp window, classify the sender, then compute the dedup
fingerprint.  The source calls

`hash_text(event.chat_room, event.sender_name, event.text, event.received_at)`

but `hash_text` (`shared/utils.py`) takes exactly three parameters
`(chat_room, sender_name, text)`, so this call unconditionally raises
`TypeError` before the insert/dedup logic is reached; the embedding records
that exception (the dedup branch downstream of it is unreachable). -/
def create_event (now : Int) (e : EventCreate) : IngestResult :=
  let max_future := now + 5 * 60
  let max_past := now - 7 * 24 * 3600
  if max_future < e.received_at || e.received_at < max_past then
    IngestResult.httpError 400 "INVALID_TIMESTAMP"
  else
    let _sender := classify_sender e.sender_name
    IngestResult.unhandled "TypeError: hash_text() takes 3 positional arguments but 4 were given"

/-! ## Statement helpers and concrete scenarios -/

/-- Field access on a JSON dict (for theorem statements). -/
def jget : Json → String → Option Json
  | .obj kvs, k => alookup k kvs
  | _, _ => none

def isDict : Json → Bool
  | .obj _ => true
  | _ => false

/-- No JSON value is recoverable from the response text: after stripping and
fence removal neither the whole text nor an embedded brace-delimited
substring parses. -/
def jsonUnrecoverable (s : String) : Bool :=
  let t0 := pyStrip s.data
  let t := if hasPrefixB fence t0 then stripFencedLines t0 else t0
  (json_loads_list t).isNone &&
    (match findJsonObjSub t with
     | some sub => (json_loads_list sub).isNone
     | none => true)

/-- Two worker processes racing on the same pending set: both run the
selection query against the same committed state (the selection writes
nothing, so the second worker sees the rows unchanged), then each processes
its batch in turn. -/
def worker_race (env : WorkerEnv) (db : DB) :
    List MessageEventRow × List MessageEventRow × DB :=
  let batchA := get_unprocessed_events db 50
  let batchB := get_unprocessed_events db 50
  let dbA := (batchA.foldl (cycleStep env) (db, [])).1
  let dbAB := (batchB.foldl (cycleStep env) (dbA, [])).1
  (batchA, batchB, dbAB)

/-- A classification with no fields set. -/
def no_classification : Classification := ⟨none, none, none, none, none, none, none⟩

/-- A typical mid-confidence customer classification. -/
def c_generic : Classification :=
  ⟨some "기능 문의", some "medium", some "neutral", some "question_how",
   some "요약", some true, some ⟨8, 1⟩⟩

/-- Scenario (SLA): an open ticket twenty-plus minutes past its first
unanswered inbound message. -/
def t_c1 : TicketRow :=
  { ticket_id := 1, clinic_key := "A의원", status := "onboarding", priority := "normal",
    topic_primary := none, summary_latest := none, intent := none,
    first_inbound_at := some 0, first_response_sec := none,
    last_inbound_at := some 0, last_outbound_at := none,
    last_message_sender := some "김고객", needs_reply := true,
    sla_breached := false, sla_alerted_at := none, updated_at := 0 }

def db_c1 : DB :=
  { events := [], tickets := [t_c1], links := [], annot_rows := [], alert_logs := [],
    next_ticket_id := 2 }

/-- Environment in which the Slack webhook delivery fails. -/
def env_c1 : WorkerEnv :=
  { classify := fun _ => (no_classification, "none"),
    update_fails := fun _ => false,
    now := 2000, sla_threshold_minutes := 20,
    alert_delivery := fun _ => (false, none, some "connection error") }

/-- Scenario (claim race): one pending customer event. -/
def ev_c2 : MessageEventRow :=
  { event_id := 1, chat_room := "A의원", sender_name := "김고객",
    sender_type := "customer", text_raw := "문의드립니다", received_at := 100,
    ingest_status := "received" }

def db_c2 : DB :=
  { events := [ev_c2], tickets := [], links := [], annot_rows := [], alert_logs := [],
    next_ticket_id := 10 }

def env_c2 : WorkerEnv :=
  { classify := fun _ => (c_generic, anthropic_model_default),
    update_fails := fun _ => false,
    now := 200, sla_threshold_minutes := 20,
    alert_delivery := fun _ => (true, some 200, none) }

/-- Scenario (batch isolation): three pending events, processing of the
second one raises. -/
def ev_c5a : MessageEventRow :=
  { event_id := 1, chat_room := "A의원", sender_name := "김고객",
    sender_type := "customer", text_raw := "첫 문의", received_at := 10,
    ingest_status := "received" }

def ev_c5b : MessageEventRow :=
  { event_id := 2, chat_room := "A의원", sender_name := "김고객",
    sender_type := "customer", text_raw := "둘째 문의", received_at := 20,
    ingest_status := "received" }

def ev_c5c : MessageEventRow :=
  { event_id := 3, chat_room := "A의원", sender_name := "김고객",
    sender_type := "customer", text_raw := "셋째 문의", received_at := 30,
    ingest_status := "received" }

def db_c5 : DB :=
  { events := [ev_c5a, ev_c5b, ev_c5c], tickets := [], links := [], annot_rows := [],
    alert_logs := [], next_ticket_id := 100 }

def env_c5 : WorkerEnv :=
  { classify := fun _ => (c_generic, anthropic_model_default),
    update_fails := fun id => id == 2,
    now := 100, sla_threshold_minutes := 20,
    alert_delivery := fun _ => (true, some 200, none) }

/-- LLM environment whose call always raises (network down). -/
def env_c4 : LLMEnv :=
  { dynamic_patterns := [], conversation_context := [], clinic_hint := "",
    prompt_additions := "", respond := fun _ _ _ => .error "offline" }

/-- Primary-tier response with confidence 0.5; secondary-tier response with
confidence 0.9. -/
def r1_c6 : String :=
  "\x7b\"topic\": \"기능 문의\", \"urgency\": \"medium\", \"needs_reply\": true, \"confidence\": 0.5\x7d"

def r2_c6 : String :=
  "\x7b\"topic\": \"기능 문의\", \"urgency\": \"medium\", \"needs_reply\": true, \"confidence\": 0.9\x7d"

def env_c6 : LLMEnv :=
  { dynamic_patterns := [], conversation_context := [], clinic_hint := "",
    prompt_additions := "",
    respond := fun m _ _ => if m == anthropic_model_default then .ok r1_c6 else .ok r2_c6 }

/-- LLM environment answering with text from which no JSON is recoverable. -/
def env_c9 : LLMEnv :=
  { dynamic_patterns := [], conversation_context := [], clinic_hint := "",
    prompt_additions := "", respond := fun _ _ _ => .ok "no json here" }

/-- Worker environment for the ticket state-machine scenarios. -/
def env_w : WorkerEnv :=
  { classify := fun _ => (no_classification, "none"),
    update_fails := fun _ => false,
    now := 500, sla_threshold_minutes := 20,
    alert_delivery := fun _ => (true, some 200, none) }

/-- A ticket that already received its first response (and was even marked
breached earlier). -/
def t_w : TicketRow :=
  { ticket_id := 3, clinic_key := "B의원", status := "stable", priority := "normal",
    topic_primary := some "예약 관련", summary_latest := none, intent := none,
    first_inbound_at := some 100, first_response_sec := some 60,
    last_inbound_at := some 100, last_outbound_at := some 160,
    last_message_sender := some "모션랩스_이우진", needs_reply := false,
    sla_breached := true, sla_alerted_at := none, updated_at := 200 }

def ev_w : MessageEventRow :=
  { event_id := 7, chat_room := "B의원", sender_name := "박고객",
    sender_type := "customer", text_raw := "아직 안 왔어요", received_at := 450,
    ingest_status := "received" }

def db_w : DB :=
  { events := [ev_w], tickets := [t_w], links := [], annot_rows := [], alert_logs := [],
    next_ticket_id := 4 }

/-- A classification explicitly demanding no reply. -/
def c_false : Classification :=
  ⟨some "인사/감사", some "low", some "positive", some "acknowledgment", none, some false, some ⟨1, 0⟩⟩

/-- A classification explicitly demanding a reply. -/
def c_true : Classification :=
  ⟨some "발송/전송 문제", some "high", some "negative", some "complaint", none, some true, some ⟨9, 1⟩⟩

/-! ## Helper lemmas -/

theorem alookup_eq_none {α : Type} (l : List (String × α)) (k : String)
    (h : l.any (fun p => p.1 == k) = false) : alookup k l = none := by
  induction l with
  | nil => rfl
  | cons p rest ih =>
    simp only [List.any_cons, Bool.or_eq_false_iff] at h
    simp only [alookup, h.1, Bool.false_eq_true, if_false]
    exact ih h.2

/-! ## Claim theorems -/

/-- C1 (counterexample): the SLA monitor marks a ticket `sla_breached=true`
even though the only alert-delivery attempt failed — afterwards no
`SLAAlertLog` row with a successful delivery status exists for it, and the
ticket is no longer eligible on the next cycle (no retry). -/
theorem sla_breach_recorded_despite_failed_delivery :
    (check_sla_breaches env_c1 db_c1).1.tickets.map (fun t => t.sla_breached) = [true] ∧
    (check_sla_breaches env_c1 db_c1).1.alert_logs.map successStatus = [false] ∧
    (check_sla_breaches env_c1 db_c1).1.alert_logs.length = 1 ∧
    (check_sla_breaches env_c1 (check_sla_breaches env_c1 db_c1).1).2.1 = 0 :=
  ⟨rfl, rfl, rfl, rfl⟩

/-- C2 (counterexample): two workers racing on the same pending set both
receive the same event from the claim query — the selection writes nothing,
the event's stored status is still `received` when processing begins — and
both fully process it (two annotation rows and two ticket links for the one
event). -/
theorem race_double_claim_same_event :
    (worker_race env_c2 db_c2).1 = [ev_c2] ∧
    (worker_race env_c2 db_c2).2.1 = [ev_c2] ∧
    ev_c2.ingest_status = "received" ∧
    (worker_race env_c2 db_c2).2.2.annot_rows.map (fun a => a.target_id) = [1, 1] ∧
    (worker_race env_c2 db_c2).2.2.links.length = 2 :=
  ⟨rfl, rfl, rfl, rfl, rfl⟩

/-- C3 (code bug): every in-window ingest request — customer or staff
sender alike — raises `TypeError`, because `create_event` passes four
arguments to the three-parameter `hash_text`; the dedup path is
unreachable.  Evaluated at two concrete valid requests. -/
theorem create_event_typeerror_on_valid_input :
    create_event 1000 ⟨"dev-1", "A의원", "김고객", "안녕하세요 문의드립니다", 900⟩ =
      IngestResult.unhandled "TypeError: hash_text() takes 3 positional arguments but 4 were given" ∧
    create_event 1000 ⟨"dev-1", "A의원", "모션랩스_이우진", "안내드립니다", 1000⟩ =
      IngestResult.unhandled "TypeError: hash_text() takes 3 positional arguments but 4 were given" :=
  ⟨rfl, rfl⟩

/-- C4 (counterexample): the spec's example message "네, 감사합니다" matches no
configured skip pattern (the comma defeats every regex), so it is not
classified with model "skip" — an LLM call is attempted for it. -/
theorem skip_example_comma_not_matched :
    match_skip_pattern [] "네, 감사합니다" = (false, none) ∧
    (classify_event env_c4 "A의원" "customer" "네, 감사합니다" false).model_used = "error" ∧
    (classify_event env_c4 "A의원" "customer" "네, 감사합니다" false).calls = [anthropic_model_default] :=
  ⟨rfl, rfl, rfl⟩

/-- C5 (code bug): in a batch of three events where processing of event 2
raises, events 1 and 3 are committed as `processed`, but event 2's `error`
status is discarded by the rollback together with its partial writes (only
annotations 1 and 3 survive) — it remains `received` and is re-selected by
the very next claim query. -/
theorem batch_error_rolled_back_and_retried :
    (run_worker_cycle env_c5 db_c5).1.events.map (fun e => e.ingest_status) =
      ["processed", "received", "processed"] ∧
    (run_worker_cycle env_c5 db_c5).1.annot_rows.map (fun a => a.target_id) = [1, 3] ∧
    (get_unprocessed_events (run_worker_cycle env_c5 db_c5).1 50).map (fun e => e.event_id) = [2] :=
  ⟨rfl, rfl, rfl⟩

/-- C9 (counterexample): `parse_json_response` does not always return a
dict — on input "123" it returns the parsed number 123. -/
theorem parse_json_response_nondict :
    parse_json_response "123" = Json.num ⟨123, 0⟩ ∧
    isDict (parse_json_response "123") = false :=
  ⟨rfl, rfl⟩

/-- C10: the intent → `needs_reply` lookup is total with a conservative
default — any intent outside the `INTENTS` table yields `true` — while the
table maps `"other"` to `false`, even though the error fallback of
`classify_event` pairs intent `"other"` with `needs_reply=true`. -/
theorem get_needs_reply_total_other_false :
    (∀ intent : String, (INTENTS.any (fun p => p.1 == intent)) = false →
      get_needs_reply intent = true) ∧
    get_needs_reply "other" = false ∧
    (∀ text e : String, jget (error_fallback text e) "intent" = some (Json.str "other") ∧
      jget (error_fallback text e) "needs_reply" = some (Json.bool true)) := by
  refine ⟨?_, rfl, ?_⟩
  · intro intent h
    unfold get_needs_reply
    rw [alookup_eq_none _ _ h]
  · intro text e
    exact ⟨rfl, rfl⟩

/-- C10 (witness): the theorem applied to the unknown intent
`"mystery_intent"` and concrete fallback arguments. -/
theorem get_needs_reply_total_witness :
    get_needs_reply "mystery_intent" = true ∧
    get_needs_reply "other" = false ∧
    jget (error_fallback "문의" "boom") "needs_reply" = some (Json.bool true) :=
  ⟨get_needs_reply_total_other_false.1 "mystery_intent" (by decide),
   get_needs_reply_total_other_false.2.1,
   (get_needs_reply_total_other_false.2.2 "문의" "boom").2⟩

theorem uct_ticket_id (env : WorkerEnv) (event : MessageEventRow) (c : Classification)
    (ticket : TicketRow) :
    (updated_customer_ticket env event c ticket).ticket_id = ticket.ticket_id := by
  unfold updated_customer_ticket
  rcases hs : c.summary with _ | s <;> rcases ht : c.topic with _ | t2 <;>
    rcases hi : c.intent with _ | i2 <;>
    simp only [hs, ht, hi, apply_ite TicketRow.ticket_id, ite_self]

theorem uct_clinic_key (env : WorkerEnv) (event : MessageEventRow) (c : Classification)
    (ticket : TicketRow) :
    (updated_customer_ticket env event c ticket).clinic_key = ticket.clinic_key := by
  unfold updated_customer_ticket
  rcases hs : c.summary with _ | s <;> rcases ht : c.topic with _ | t2 <;>
    rcases hi : c.intent with _ | i2 <;>
    simp only [hs, ht, hi, apply_ite TicketRow.clinic_key, ite_self]

theorem uct_needs_reply (env : WorkerEnv) (event : MessageEventRow) (c : Classification)
    (ticket : TicketRow) :
    (updated_customer_ticket env event c ticket).needs_reply = c.needs_reply.getD true := by
  unfold updated_customer_ticket
  rcases hs : c.summary with _ | s <;> rcases ht : c.topic with _ | t2 <;>
    rcases hi : c.intent with _ | i2 <;>
    simp only [hs, ht, hi, apply_ite TicketRow.needs_reply, ite_self]

theorem uct_sla_cleared (env : WorkerEnv) (event : MessageEventRow) (c : Classification)
    (ticket : TicketRow) (h : c.needs_reply.getD true = false) :
    (updated_customer_ticket env event c ticket).sla_breached = false := by
  unfold updated_customer_ticket
  rcases hs : c.summary with _ | s <;> rcases ht : c.topic with _ | t2 <;>
    rcases hi : c.intent with _ | i2 <;>
    simp [hs, ht, hi, h, apply_ite TicketRow.sla_breached]

theorem uct_reinquiry (env : WorkerEnv) (event : MessageEventRow) (c : Classification)
    (ticket : TicketRow) (hresp : ticket.first_response_sec.isSome = true)
    (hnr : c.needs_reply.getD true = true) :
    (updated_customer_ticket env event c ticket).sla_breached = false ∧
    (updated_customer_ticket env event c ticket).first_inbound_at = some event.received_at ∧
    (updated_customer_ticket env event c ticket).first_response_sec = none := by
  unfold updated_customer_ticket
  refine ⟨?_, ?_, ?_⟩ <;>
    (rcases hs : c.summary with _ | s <;> rcases ht : c.topic with _ | t2 <;>
      rcases hi : c.intent with _ | i2 <;>
      simp [hs, ht, hi, hnr, hresp, apply_ite TicketRow.sla_breached,
        apply_ite TicketRow.first_inbound_at, apply_ite TicketRow.first_response_sec])

theorem fold_latest_mem (l : List TicketRow) (a : TicketRow) :
    (l.foldl (fun best x => if best.updated_at < x.updated_at then x else best) a) ∈ a :: l := by
  induction l generalizing a with
  | nil => exact List.mem_singleton.mpr rfl
  | cons x xs ih =>
    have h := ih (if a.updated_at < x.updated_at then x else a)
    simp only [List.foldl_cons]
    rcases List.mem_cons.mp h with h1 | h1
    · rw [h1]
      split
      · exact List.mem_cons_of_mem _ (List.mem_cons_self _ _)
      · exact List.mem_cons_self _ _
    · exact List.mem_cons_of_mem _ (List.mem_cons_of_mem _ h1)

theorem find_open_ticket_mem (db : DB) (clinic : String) (t : TicketRow)
    (h : find_open_ticket db clinic = some t) :
    t ∈ db.tickets ∧ t.clinic_key = clinic := by
  unfold find_open_ticket at h
  rcases hf : db.tickets.filter (fun t => t.clinic_key == clinic) with _ | ⟨a, l⟩
  · rw [hf] at h
    simp at h
  · rw [hf] at h
    have ht : l.foldl (fun best x => if best.updated_at < x.updated_at then x else best) a = t := by
      simpa using h
    have hmem : t ∈ a :: l := ht ▸ fold_latest_mem l a
    have hmem2 : t ∈ db.tickets.filter (fun t => t.clinic_key == clinic) := by
      rw [hf]; exact hmem
    have h2 := List.mem_filter.mp hmem2
    exact ⟨h2.1, by simpa using h2.2⟩

/-- C7: for an inbound customer event, the ticket written back by
`handle_customer_event` belongs to the event's conversation, its
`needs_reply` equals the classification of this event alone (always
overwritten, whatever the prior ticket state was), whenever that
classification is `false` the `sla_breached` flag is cleared, and the
returned ticket is stored in the session state. -/
theorem needs_reply_overwrite (env : WorkerEnv) (db : DB) (event : MessageEventRow)
    (c : Classification) :
    (handle_customer_event env db event c).2.1.clinic_key = event.chat_room ∧
    (handle_customer_event env db event c).2.1.needs_reply = c.needs_reply.getD true ∧
    (c.needs_reply.getD true = false →
      (handle_customer_event env db event c).2.1.sla_breached = false) ∧
    (handle_customer_event env db event c).2.1 ∈ (handle_customer_event env db event c).1.tickets := by
  rcases hfind : find_open_ticket db event.chat_room with _ | t0
  · simp [handle_customer_event, hfind, link_event_to_ticket]
  · simp only [handle_customer_event, hfind]
    have hm := (find_open_ticket_mem db event.chat_room t0 hfind).2
    refine ⟨(uct_clinic_key env event c t0).trans hm, uct_needs_reply env event c t0,
      fun h => uct_sla_cleared env event c t0 h, ?_⟩
    simp only [replaceTicket, link_event_to_ticket, List.mem_map]
    refine ⟨t0, (find_open_ticket_mem db event.chat_room t0 hfind).1, ?_⟩
    rw [uct_ticket_id env event c t0]
    simp

/-- C7 (witness): the theorem applied to a concrete prior ticket with
`needs_reply=true` and `sla_breached=true`, and a classification saying no
reply is needed. -/
theorem needs_reply_overwrite_witness :
    (handle_customer_event env_w db_w ev_w c_false).2.1.needs_reply = false ∧
    (handle_customer_event env_w db_w ev_w c_false).2.1.sla_breached = false := by
  have h := needs_reply_overwrite env_w db_w ev_w c_false
  exact ⟨h.2.1.trans rfl, h.2.2.1 rfl⟩

/-- C8: when the conversation's open ticket already records a first
response and the new inbound customer message is classified
`needs_reply=true`, `handle_customer_event` resets the SLA window: the
breach flag is cleared, `first_inbound_at` becomes the new message's
receipt time, and `first_response_sec` becomes null. -/
theorem sla_reset_on_reinquiry (env : WorkerEnv) (db : DB) (event : MessageEventRow)
    (c : Classification) (t0 : TicketRow)
    (hfind : find_open_ticket db event.chat_room = some t0)
    (hresp : t0.first_response_sec.isSome = true)
    (hnr : c.needs_reply.getD true = true) :
    (handle_customer_event env db event c).2.1.sla_breached = false ∧
    (handle_customer_event env db event c).2.1.first_inbound_at = some event.received_at ∧
    (handle_customer_event env db event c).2.1.first_response_sec = none := by
  simp only [handle_customer_event, hfind]
  exact uct_reinquiry env event c t0 hresp hnr

/-- C8 (witness): the theorem applied to the concrete re-opening scenario
(`t_w` has `first_response_sec = some 60`; the new message at time 450 is
classified as needing a reply). -/
theorem sla_reset_on_reinquiry_witness :
    (handle_customer_event env_w db_w ev_w c_true).2.1.sla_breached = false ∧
    (handle_customer_event env_w db_w ev_w c_true).2.1.first_inbound_at = some 450 ∧
    (handle_customer_event env_w db_w ev_w c_true).2.1.first_response_sec = none :=
  sla_reset_on_reinquiry env_w db_w ev_w c_true t_w rfl rfl rfl

theorem except_bind_ok {α β : Type} (m : Except String α) (f : α → Except String β) (b : β)
    (h : (m >>= f) = .ok b) : ∃ a, m = .ok a ∧ f a = .ok b := by
  cases m with
  | error e => exact absurd h (by simp [Bind.bind, Except.bind])
  | ok a => exact ⟨a, rfl, by simpa [Bind.bind, Except.bind] using h⟩

theorem classify_post_not_default (model text : String) (r0 : Json)
    (hm : (model == anthropic_model_default) = false) (out : Json × Bool)
    (h : classify_post model text r0 = .ok out) : out.2 = false := by
  unfold classify_post at h
  simp only [hm, Bool.false_eq_true, if_false] at h
  obtain ⟨t1, _, h⟩ := except_bind_ok _ _ _ h
  obtain ⟨t2, _, h⟩ := except_bind_ok _ _ _ h
  obtain ⟨t3, _, h⟩ := except_bind_ok _ _ _ h
  obtain ⟨hasNR, _, h⟩ := except_bind_ok _ _ _ h
  split at h
  · obtain ⟨intentv, _, h⟩ := except_bind_ok _ _ _ h
    obtain ⟨nr, _, h⟩ := except_bind_ok _ _ _ h
    obtain ⟨y, _, h⟩ := except_bind_ok _ _ _ h
    simp only [pure, Except.pure, Except.ok.injEq] at h
    rw [← h]
  · obtain ⟨y, _, h⟩ := except_bind_ok _ _ _ h
    simp only [pure, Except.pure, Except.ok.injEq] at h
    rw [← h]

theorem classify_attempt_forced (env : LLMEnv) (cr st text : String)
    (hskip : match_skip_pattern env.dynamic_patterns text = (false, none)) :
    (classify_attempt env cr st text true).1.calls = [anthropic_model_escalate] ∧
    (classify_attempt env cr st text true).2 = false := by
  unfold classify_attempt
  rw [hskip]
  simp only [Bool.true_or, if_true]
  rcases hr : env.respond anthropic_model_escalate (system_prompt env)
      (user_prompt env cr st text) with e | rtext
  · exact ⟨rfl, rfl⟩
  · dsimp only
    rcases hp : classify_post anthropic_model_escalate text (parse_json_response rtext)
      with e | ⟨result, esc⟩
    · exact ⟨rfl, rfl⟩
    · exact ⟨rfl,
        classify_post_not_default _ text _ (by decide) (result, esc) hp⟩

theorem classify_post_default_low (text : String) (kvs : List (String × Json)) (q : Dec)
    (htopic : kvs.any (fun p => p.1 == "topic") = true)
    (hurg : kvs.any (fun p => p.1 == "urgency") = true)
    (hconfkey : kvs.any (fun p => p.1 == "confidence") = true)
    (hnrkey : kvs.any (fun p => p.1 == "needs_reply") = true)
    (hconf : alookup "confidence" kvs = some (Json.num q))
    (hlow : Dec.ltB q ⟨65, 2⟩ = true) :
    classify_post anthropic_model_default text (Json.obj kvs) = .ok (Json.obj kvs, true) := by
  unfold classify_post
  simp [py_in, dict_get, py_lt_num, htopic, hurg, hconfkey, hnrkey, hconf, hlow,
    Bind.bind, Except.bind, pure, Except.pure]

/-- C6: when the skip patterns do not match, no escalation keyword is
present, and the primary-tier (default model) response parses to a dict with
the required fields and confidence 0.5 — or any confidence below 0.65 —
`classify_event` makes exactly one further call, to the escalation model,
and its final result and model are exactly those of the forced
secondary-tier run (which itself never re-escalates, whatever its own
confidence). -/
theorem low_confidence_escalates_once (env : LLMEnv) (cr st text r1 : String)
    (kvs : List (String × Json)) (q : Dec)
    (hskip : match_skip_pattern env.dynamic_patterns text = (false, none))
    (hkw : should_escalate_to_sonnet text = false)
    (hresp : env.respond anthropic_model_default (system_prompt env)
      (user_prompt env cr st text) = .ok r1)
    (hparse : parse_json_response r1 = Json.obj kvs)
    (htopic : kvs.any (fun p => p.1 == "topic") = true)
    (hurg : kvs.any (fun p => p.1 == "urgency") = true)
    (hconfkey : kvs.any (fun p => p.1 == "confidence") = true)
    (hnrkey : kvs.any (fun p => p.1 == "needs_reply") = true)
    (hconf : alookup "confidence" kvs = some (Json.num q))
    (hlow : Dec.ltB q ⟨65, 2⟩ = true) :
    (classify_event env cr st text false).calls =
      [anthropic_model_default, anthropic_model_escalate] ∧
    (classify_event env cr st text false).result = (classify_event env cr st text true).result ∧
    (classify_event env cr st text false).model_used =
      (classify_event env cr st text true).model_used := by
  have hforced := classify_attempt_forced env cr st text hskip
  have hfirst : classify_attempt env cr st text false =
      (⟨Json.obj kvs, anthropic_model_default, [anthropic_model_default]⟩, true) := by
    unfold classify_attempt
    rw [hskip]
    simp only [Bool.false_or, hkw, Bool.false_eq_true, if_false]
    rw [hresp]
    dsimp only
    rw [hparse, classify_post_default_low text kvs q htopic hurg hconfkey hnrkey hconf hlow]
  unfold classify_event
  rw [hfirst]
  refine ⟨?_, ?_, ?_⟩ <;> simp [hforced.1, hforced.2]

/-- C6 (witness): the theorem applied to an oracle whose primary tier
answers with confidence 0.5 and whose secondary tier answers with
confidence 0.9. -/
theorem low_confidence_escalates_once_witness :
    (classify_event env_c6 "A의원" "customer" "설정 방법 문의" false).calls =
      [anthropic_model_default, anthropic_model_escalate] ∧
    (classify_event env_c6 "A의원" "customer" "설정 방법 문의" false).result =
      (classify_event env_c6 "A의원" "customer" "설정 방법 문의" true).result ∧
    (classify_event env_c6 "A의원" "customer" "설정 방법 문의" false).model_used =
      (classify_event env_c6 "A의원" "customer" "설정 방법 문의" true).model_used :=
  low_confidence_escalates_once env_c6 "A의원" "customer" "설정 방법 문의" r1_c6
    [("topic", Json.str "기능 문의"), ("urgency", Json.str "medium"),
     ("needs_reply", Json.bool true), ("confidence", Json.num ⟨5, 1⟩)] ⟨5, 1⟩
    rfl rfl rfl rfl rfl rfl rfl rfl rfl rfl

/-- C4: any message whose stripped text fully matches one of the configured
static skip patterns is classified without any LLM call: the result is the
skip dict with confidence 1.0 and model marker "skip", and its `needs_reply`
is the matched intent's table polarity — which is `false`, the matched
intent being `acknowledgment` or `reaction`. -/
theorem skip_pattern_short_circuit (env : LLMEnv) (cr st text intent : String)
    (hstat : (COMPILED_SKIP_PATTERNS.find?
        (fun p => p.2.any (fun r => r.fullmatch (pyStrip text.data)))).map Prod.fst =
      some intent) :
    classify_event env cr st text false = ⟨skip_result text intent, "skip", []⟩ ∧
    jget (skip_result text intent) "confidence" = some (Json.num ⟨1, 0⟩) ∧
    jget (skip_result text intent) "needs_reply" = some (Json.bool (get_needs_reply intent)) ∧
    get_needs_reply intent = false := by
  have hpair : ∃ p, COMPILED_SKIP_PATTERNS.find?
      (fun p => p.2.any (fun r => r.fullmatch (pyStrip text.data))) = some p ∧ p.1 = intent := by
    rcases hq : COMPILED_SKIP_PATTERNS.find?
        (fun p => p.2.any (fun r => r.fullmatch (pyStrip text.data))) with _ | p
    · rw [hq] at hstat
      simp at hstat
    · rw [hq] at hstat
      simp at hstat
      exact ⟨p, hq, hstat⟩
  obtain ⟨p, hfindp, hfst⟩ := hpair
  have hmem := List.mem_of_find?_eq_some hfindp
  unfold COMPILED_SKIP_PATTERNS at hmem
  have hintent : intent = "acknowledgment" ∨ intent = "reaction" := by
    rcases List.mem_cons.mp hmem with h1 | h1
    · left
      rw [← hfst, h1]
    · rcases List.mem_cons.mp h1 with h2 | h2
      · right
        rw [← hfst, h2]
      · exact absurd h2 (List.not_mem_nil p)
  have hmatch : match_skip_pattern env.dynamic_patterns text = (true, some intent) := by
    unfold match_skip_pattern
    dsimp only
    rw [hstat]
  have hclassify : classify_event env cr st text false = ⟨skip_result text intent, "skip", []⟩ := by
    unfold classify_event classify_attempt
    rw [hmatch]
    rfl
  refine ⟨hclassify, rfl, rfl, ?_⟩
  rcases hintent with h | h <;> rw [h] <;> rfl

/-- C4 (witness): the theorem applied to "네 감사합니다" (which, unlike the
spec's comma-bearing example, does match an acknowledgment pattern). -/
theorem skip_pattern_short_circuit_witness :
    classify_event env_c4 "A의원" "customer" "네 감사합니다" false =
      ⟨skip_result "네 감사합니다" "acknowledgment", "skip", []⟩ ∧
    jget (skip_result "네 감사합니다" "acknowledgment") "confidence" = some (Json.num ⟨1, 0⟩) ∧
    jget (skip_result "네 감사합니다" "acknowledgment") "needs_reply" =
      some (Json.bool (get_needs_reply "acknowledgment")) ∧
    get_needs_reply "acknowledgment" = false :=
  skip_pattern_short_circuit env_c4 "A의원" "customer" "네 감사합니다" "acknowledgment" rfl

/-- C9 (amended): `parse_json_response` is total but returns whatever JSON
value it recovers (not necessarily a dict); whenever no JSON value is
recoverable it returns the empty dict, and the caller then degrades to the
conservative 0.5-confidence fallback whose `needs_reply` is `true`. -/
theorem parse_json_fallback_conservative :
    (∀ s : String, jsonUnrecoverable s = true → parse_json_response s = Json.obj []) ∧
    (∀ (env : LLMEnv) (cr st text r : String),
      (∀ m sp up, env.respond m sp up = .ok r) →
      match_skip_pattern env.dynamic_patterns text = (false, none) →
      parse_json_response r = Json.obj [] →
      (classify_event env cr st text false).result = parse_fallback text ∧
      jget (classify_event env cr st text false).result "needs_reply" = some (Json.bool true)) := by
  constructor
  · intro s h
    unfold jsonUnrecoverable at h
    unfold parse_json_response
    dsimp only at h ⊢
    rcases h1 : json_loads_list
        (if hasPrefixB fence (pyStrip s.data) then stripFencedLines (pyStrip s.data)
         else pyStrip s.data) with _ | v
    · rcases h2 : findJsonObjSub
          (if hasPrefixB fence (pyStrip s.data) then stripFencedLines (pyStrip s.data)
           else pyStrip s.data) with _ | sub
      · simp [h1, h2]
      · rcases h3 : json_loads_list sub with _ | v2
        · simp [h1, h2, h3]
        · rw [h2] at h
          simp [h3] at h
    · simp [h1] at h
  · intro env cr st text r hresp hskip hnodict
    have hpost_d : classify_post anthropic_model_default text (Json.obj []) =
        .ok (parse_fallback text, true) := rfl
    have hpost_e : classify_post anthropic_model_escalate text (Json.obj []) =
        .ok (parse_fallback text, false) := rfl
    by_cases hkw : should_escalate_to_sonnet text = true
    · have hatt : classify_attempt env cr st text false =
          (⟨parse_fallback text, anthropic_model_escalate, [anthropic_model_escalate]⟩, false) := by
        unfold classify_attempt
        rw [hskip]
        simp only [Bool.false_or, hkw, if_true]
        rw [hresp anthropic_model_escalate (system_prompt env) (user_prompt env cr st text)]
        dsimp only
        rw [hnodict, hpost_e]
      unfold classify_event
      rw [hatt]
      exact ⟨rfl, rfl⟩
    · have hkw2 : should_escalate_to_sonnet text = false := by
        simpa using hkw
      have hatt : classify_attempt env cr st text false =
          (⟨parse_fallback text, anthropic_model_default, [anthropic_model_default]⟩, true) := by
        unfold classify_attempt
        rw [hskip]
        simp only [Bool.false_or, hkw2, Bool.false_eq_true, if_false]
        rw [hresp anthropic_model_default (system_prompt env) (user_prompt env cr st text)]
        dsimp only
        rw [hnodict, hpost_d]
      have hatt2 : classify_attempt env cr st text true =
          (⟨parse_fallback text, anthropic_model_escalate, [anthropic_model_escalate]⟩, false) := by
        unfold classify_attempt
        rw [hskip]
        simp only [Bool.true_or, if_true]
        rw [hresp anthropic_model_escalate (system_prompt env) (user_prompt env cr st text)]
        dsimp only
        rw [hnodict, hpost_e]
      unfold classify_event
      rw [hatt, hatt2]
      exact ⟨rfl, rfl⟩

/-- C9 (witness): the theorem applied to the unparsable response
"no json here" and to an oracle that always answers with it. -/
theorem parse_json_fallback_witness :
    parse_json_response "no json here" = Json.obj [] ∧
    (classify_event env_c9 "A의원" "customer" "설정 문의입니다" false).result =
      parse_fallback "설정 문의입니다" :=
  ⟨parse_json_fallback_conservative.1 "no json here" rfl,
   (parse_json_fallback_conservative.2 env_c9 "A의원" "customer" "설정 문의입니다"
     "no json here" (fun _ _ _ => rfl) rfl rfl).1⟩

theorem mem_insertByTime (e x : MessageEventRow) (l : List MessageEventRow)
    (h : x ∈ insertByTime e l) : x = e ∨ x ∈ l := by
  induction l with
  | nil => exact Or.inl (List.mem_singleton.mp h)
  | cons a l ih =>
    unfold insertByTime at h
    split at h
    · rcases List.mem_cons.mp h with h1 | h1
      · exact Or.inl h1
      · exact Or.inr h1
    · rcases List.mem_cons.mp h with h1 | h1
      · exact Or.inr (h1 ▸ List.mem_cons_self a _)
      · rcases ih h1 with h2 | h2
        · exact Or.inl h2
        · exact Or.inr (List.mem_cons_of_mem a h2)

theorem mem_sortByTime (x : MessageEventRow) (l : List MessageEventRow)
    (h : x ∈ sortByTime l) : x ∈ l := by
  induction l with
  | nil => exact absurd h (List.not_mem_nil x)
  | cons a l ih =>
    have h2 : x ∈ insertByTime a (sortByTime l) := h
    rcases mem_insertByTime a x (sortByTime l) h2 with h3 | h3
    · exact h3 ▸ List.mem_cons_self a l
    · exact List.mem_cons_of_mem a (ih h3)

theorem events_handle_customer (env : WorkerEnv) (db : DB) (ev : MessageEventRow)
    (c : Classification) : (handle_customer_event env db ev c).1.events = db.events := by
  rcases h : find_open_ticket db ev.chat_room with _ | t0 <;>
    simp [handle_customer_event, h, link_event_to_ticket, replaceTicket]

theorem events_handle_staff (env : WorkerEnv) (db : DB) (ev : MessageEventRow) :
    (handle_staff_event env db ev).1.events = db.events := by
  rcases h : find_open_ticket db ev.chat_room with _ | t0
  · simp [handle_staff_event, h, link_event_to_ticket, replaceTicket]
  · rcases h2 : t0.first_response_sec with _ | v <;> rcases h3 : t0.first_inbound_at with _ | fi <;>
      simp [handle_staff_event, h, h2, h3, link_event_to_ticket, replaceTicket]

theorem process_event_ok_events (env : WorkerEnv) (db : DB) (e : MessageEventRow)
    (db2 : DB) (effs : List Effect) (h : process_event env db e = .ok (db2, effs)) :
    db2.events = db.events.map (fun x =>
      if x.event_id == e.event_id then { x with ingest_status := "processed" } else x) := by
  unfold process_event at h
  repeat' split at h
  all_goals try exact Except.noConfusion h
  all_goals
    (simp only [Except.ok.injEq, Prod.mk.injEq] at h
     rw [← h.1]
     simp [updateEventStatus, events_handle_customer, events_handle_staff, save_llm_annot])

theorem cycle_fold_no_processing (env : WorkerEnv) (evs : List MessageEventRow)
    (db : DB) (effs : List Effect)
    (h : ∀ e ∈ db.events, e.ingest_status ≠ "processing") :
    ∀ e ∈ (evs.foldl (cycleStep env) (db, effs)).1.events, e.ingest_status ≠ "processing" := by
  induction evs generalizing db effs with
  | nil => exact h
  | cons ev evs ih =>
    simp only [List.foldl_cons]
    have hstep : ∀ e ∈ (cycleStep env (db, effs) ev).1.events, e.ingest_status ≠ "processing" := by
      unfold cycleStep
      rcases hp : process_event env db ev with pe | ⟨db2, effs2⟩
      · exact h
      · dsimp only
        rw [process_event_ok_events env db ev db2 effs2 hp]
        intro e he
        rcases List.mem_map.mp he with ⟨x, hx, hxe⟩
        by_cases hid : (x.event_id == ev.event_id) = true
        · rw [if_pos hid] at hxe
          rw [← hxe]
          show ("processed" : String) ≠ "processing"
          decide
        · rw [if_neg hid] at hxe
          exact hxe ▸ h x hx
    exact ih _ _ hstep

theorem sla_fold_events (env : WorkerEnv) (cs : List TicketRow) (db : DB) (effs : List Effect) :
    (cs.foldl (slaStep env) (db, effs)).1.events = db.events := by
  induction cs generalizing db effs with
  | nil => rfl
  | cons c cs ih =>
    simp only [List.foldl_cons]
    exact ih _ _

/-- C2 (amended): the claim query returns exactly events whose stored
status is `received` and writes nothing — no `processing` state exists:
after a full worker cycle every event either keeps its prior status or has
been moved directly to its terminal status, and no event is ever in a
`processing` state. -/
theorem claim_loop_no_processing :
    (∀ (db : DB) (limit : Nat), ∀ e ∈ get_unprocessed_events db limit,
      e.ingest_status = "received") ∧
    (∀ (env : WorkerEnv) (db : DB),
      (∀ e ∈ db.events, e.ingest_status ≠ "processing") →
      ∀ e ∈ (run_worker_cycle env db).1.events, e.ingest_status ≠ "processing") := by
  constructor
  · intro db limit e he
    unfold get_unprocessed_events at he
    have h1 : e ∈ sortByTime (db.events.filter (fun e => e.ingest_status == "received")) :=
      List.take_subset _ _ he
    have h2 := mem_sortByTime _ _ h1
    have h3 := List.mem_filter.mp h2
    simpa using h3.2
  · intro env db h e he
    unfold run_worker_cycle at he
    have h1 := cycle_fold_no_processing env (get_unprocessed_events db 50) db [] h
    have h2 : ∀ x ∈ (check_sla_breaches env
        ((get_unprocessed_events db 50).foldl (cycleStep env) (db, [])).1).1.events,
        x.ingest_status ≠ "processing" := by
      unfold check_sla_breaches
      dsimp only
      rw [sla_fold_events]
      exact h1
    dsimp only at he
    split at he
    · exact h2 e he
    · exact h1 e he

/-- C2 (amended, witness): the theorem applied to the concrete one-event
scenario: the selected event has status `received`, and after the cycle the
event moved directly to `processed` (never `processing`). -/
theorem claim_loop_no_processing_witness :
    ev_c2.ingest_status = "received" ∧
    ({ ev_c2 with ingest_status := "processed" } : MessageEventRow).ingest_status ≠ "processing" :=
  ⟨claim_loop_no_processing.1 db_c2 50 ev_c2 (by decide),
   claim_loop_no_processing.2 env_c2 db_c2 (by decide)
     { ev_c2 with ingest_status := "processed" } (by decide)⟩

theorem nodup_map_inj {α β : Type} (f : α → β) (l : List α) (hnd : (l.map f).Nodup) :
    ∀ a ∈ l, ∀ b ∈ l, f a = f b → a = b := by
  induction l with
  | nil =>
    intro a ha
    exact absurd ha (List.not_mem_nil a)
  | cons c l ih =>
    simp only [List.map_cons, List.nodup_cons] at hnd
    intro a ha b hb hf
    rcases List.mem_cons.mp ha with h1 | h1 <;> rcases List.mem_cons.mp hb with h2 | h2
    · rw [h1, h2]
    · exfalso
      apply hnd.1
      rw [h1] at hf
      exact hf ▸ List.mem_map_of_mem f h2
    · exfalso
      apply hnd.1
      rw [h2] at hf
      exact hf.symm ▸ List.mem_map_of_mem f h1
    · exact ih hnd.2 a h1 b h2 hf

theorem sla_fold_tickets (env : WorkerEnv) (cs : List TicketRow) (db : DB) (effs : List Effect) :
    (cs.foldl (slaStep env) (db, effs)).1.tickets =
      cs.foldl (fun l c => l.map
        (fun x => if x.ticket_id == c.ticket_id then slaBump env c else x)) db.tickets := by
  induction cs generalizing db effs with
  | nil => rfl
  | cons c cs ih =>
    simp only [List.foldl_cons]
    exact ih ((slaStep env) (db, effs) c).1 ((slaStep env) (db, effs) c).2

theorem sla_fold_logs (env : WorkerEnv) (cs : List TicketRow) (db : DB) (effs : List Effect) :
    (cs.foldl (slaStep env) (db, effs)).1.alert_logs =
      db.alert_logs ++ cs.map (fun c => slaLogRow env c.ticket_id) := by
  induction cs generalizing db effs with
  | nil => simp
  | cons c cs ih =>
    simp only [List.foldl_cons, List.map_cons]
    calc (cs.foldl (slaStep env) ((slaStep env) (db, effs) c)).1.alert_logs
        = ((slaStep env) (db, effs) c).1.alert_logs ++
            cs.map (fun c => slaLogRow env c.ticket_id) :=
          ih ((slaStep env) (db, effs) c).1 ((slaStep env) (db, effs) c).2
      _ = (db.alert_logs ++ [slaLogRow env c.ticket_id]) ++
            cs.map (fun c => slaLogRow env c.ticket_id) := rfl
      _ = db.alert_logs ++ slaLogRow env c.ticket_id ::
            cs.map (fun c => slaLogRow env c.ticket_id) := by simp

theorem tick_fold_map (env : WorkerEnv) (cs : List TicketRow) (l : List TicketRow) :
    cs.foldl (fun l c => l.map
        (fun x => if x.ticket_id == c.ticket_id then slaBump env c else x)) l =
      l.map (fun x => cs.foldl
        (fun x c => if x.ticket_id == c.ticket_id then slaBump env c else x) x) := by
  induction cs generalizing l with
  | nil => simp
  | cons c cs ih =>
    simp only [List.foldl_cons]
    rw [ih, List.map_map]
    rfl

theorem apply_all_notmem (env : WorkerEnv) (cs : List TicketRow) (x : TicketRow)
    (h : ∀ c ∈ cs, (x.ticket_id == c.ticket_id) = false) :
    cs.foldl (fun x c => if x.ticket_id == c.ticket_id then slaBump env c else x) x = x := by
  induction cs with
  | nil => rfl
  | cons c cs ih =>
    simp only [List.foldl_cons]
    rw [if_neg (by simp [h c (List.mem_cons_self c cs)])]
    exact ih (fun c2 hc2 => h c2 (List.mem_cons_of_mem c hc2))

theorem apply_all_found (env : WorkerEnv) (cs : List TicketRow) (x : TicketRow)
    (hnd : (cs.map TicketRow.ticket_id).Nodup) (hx : x ∈ cs)
    (huniq : ∀ c ∈ cs, c.ticket_id = x.ticket_id → c = x) :
    cs.foldl (fun x c => if x.ticket_id == c.ticket_id then slaBump env c else x) x =
      slaBump env x := by
  induction cs with
  | nil => exact absurd hx (List.not_mem_nil x)
  | cons c cs ih =>
    simp only [List.foldl_cons]
    by_cases hc : (x.ticket_id == c.ticket_id) = true
    · have hcx : c = x := huniq c (List.mem_cons_self c cs) (beq_iff_eq.mp hc).symm
      rw [if_pos hc]
      subst hcx
      simp only [List.map_cons, List.nodup_cons] at hnd
      apply apply_all_notmem
      intro c2 hc2
      have hne : c2.ticket_id ≠ c.ticket_id :=
        fun he => hnd.1 (he ▸ List.mem_map_of_mem TicketRow.ticket_id hc2)
      show (c.ticket_id == c2.ticket_id) = false
      exact beq_eq_false_iff_ne.mpr (fun he => hne he.symm)
    · rw [if_neg hc]
      have hxcs : x ∈ cs := by
        rcases List.mem_cons.mp hx with h1 | h1
        · exact absurd (by simp [h1]) hc
        · exact h1
      simp only [List.map_cons, List.nodup_cons] at hnd
      exact ih hnd.2 hxcs (fun c2 hc2 he => huniq c2 (List.mem_cons_of_mem c hc2) he)

theorem apply_all_filter (env : WorkerEnv) (l : List TicketRow)
    (hnd : (l.map TicketRow.ticket_id).Nodup) (x : TicketRow) (hx : x ∈ l) :
    (l.filter (slaCandidate env)).foldl
        (fun x c => if x.ticket_id == c.ticket_id then slaBump env c else x) x =
      if slaCandidate env x then slaBump env x else x := by
  have hinj := nodup_map_inj TicketRow.ticket_id l hnd
  by_cases hp : slaCandidate env x = true
  · rw [if_pos hp]
    apply apply_all_found
    · exact List.Sublist.nodup (List.Sublist.map _ (List.filter_sublist l)) hnd
    · exact List.mem_filter.mpr ⟨hx, hp⟩
    · intro c hc he
      exact hinj c (List.mem_filter.mp hc).1 x hx he
  · rw [if_neg hp]
    apply apply_all_notmem
    intro c hc
    have hcl := List.mem_filter.mp hc
    cases hb : (x.ticket_id == c.ticket_id) with
    | false => rfl
    | true =>
      exfalso
      have hxc : x = c := hinj x hx c hcl.1 (beq_iff_eq.mp hb)
      rw [hxc] at hp
      exact hp hcl.2

/-- C1 (amended): the SLA monitor transitions every candidate ticket (no
first response, past the threshold, not yet breached, needing a reply) to
`sla_breached=true` and records exactly one `SLAAlertLog` row for it,
whatever the webhook delivery outcome is; a ticket marked breached is never
an SLA candidate again, so a failed delivery is not retried. -/
theorem check_sla_breaches_regardless (env : WorkerEnv) (db : DB)
    (hnd : (db.tickets.map TicketRow.ticket_id).Nodup) :
    (check_sla_breaches env db).1.tickets =
      db.tickets.map (fun t => if slaCandidate env t then slaBump env t else t) ∧
    (check_sla_breaches env db).1.alert_logs =
      db.alert_logs ++ (db.tickets.filter (slaCandidate env)).map
        (fun t => slaLogRow env t.ticket_id) ∧
    ∀ t : TicketRow, slaCandidate env (slaBump env t) = false := by
  refine ⟨?_, ?_, ?_⟩
  · show ((db.tickets.filter (slaCandidate env)).foldl (slaStep env) (db, [])).1.tickets = _
    rw [sla_fold_tickets, tick_fold_map]
    exact List.map_congr_left (fun x hx => apply_all_filter env db.tickets hnd x hx)
  · show ((db.tickets.filter (slaCandidate env)).foldl (slaStep env) (db, [])).1.alert_logs = _
    exact sla_fold_logs env (db.tickets.filter (slaCandidate env)) db []
  · intro t
    simp [slaCandidate, slaBump]

/-- C1 (amended, witness): the theorem applied to the concrete
failed-delivery scenario. -/
theorem check_sla_breaches_regardless_witness :
    (check_sla_breaches env_c1 db_c1).1.tickets =
      db_c1.tickets.map (fun t => if slaCandidate env_c1 t then slaBump env_c1 t else t) ∧
    (check_sla_breaches env_c1 db_c1).1.alert_logs =
      db_c1.alert_logs ++ (db_c1.tickets.filter (slaCandidate env_c1)).map
        (fun t => slaLogRow env_c1 t.ticket_id) ∧
    ∀ t : TicketRow, slaCandidate env_c1 (slaBump env_c1 t) = false :=
  check_sla_breaches_regardless env_c1 db_c1 (by decide)
